import Mathlib

/-!
# Deployment scripts of `interact/`

A shallow embedding of the seven scripts under `src/interact/` and the
properties their specification states about them.

Every script is a straight-line `async` function that talks to two
collaborators, the Solidity compiler (`solc`) and the `ethers` JSON-RPC
library, and prints to the console.  A script is embedded as a function from
the trace so far to a result and the extended trace; the trace records every
collaborator call with its arguments and its outcome, and every console line.
The collaborators are a parameter (`World`): each operation answers as a
function of its arguments and of the trace so far, so that a collaborator may
keep state.
-/

namespace Interact

/-! ## JavaScript values -/

/-- A JavaScript string, as the sequence of its UTF-16 code units: `length`
and `substring` count code units. -/
abbrev JsString := List Nat

/-- The UTF-16 code units of one character. -/
def utf16 (c : Char) : List Nat :=
  if c.toNat < 65536 then [c.toNat]
  else [55296 + (c.toNat - 65536) / 1024, 56320 + (c.toNat - 65536) % 1024]

/-- The JavaScript string a string literal of the source denotes. -/
def js (s : String) : JsString := (s.toList.map utf16).flatten

/-- The text of `n.toString()` for a non-negative integer or bigint. -/
def decimal (n : Nat) : JsString := js (Nat.repr n)

/-- The string `s.substring(0, n)`. -/
def substring0 (s : JsString) (n : Nat) : JsString := s.take n

/-- The string `v + s` where `v` is a string or `undefined`: string
concatenation renders `undefined` as the text `undefined`. -/
def plusString (v : Option JsString) (s : JsString) : JsString :=
  match v with
  | some t => t ++ s
  | none => js "undefined" ++ s

/-- The number `Number(n)` for a bigint `n` below `2 ^ 1024`: the nearest
double, ties to even.  It is `n` itself below `2 ^ 53`. -/
def bigintToNumber (n : Nat) : Nat :=
  if n < 2 ^ 53 then n
  else
    let e := Nat.log2 n - 52
    let q := n / 2 ^ e
    let r := n % 2 ^ e
    let half := 2 ^ (e - 1)
    if r < half then q * 2 ^ e
    else if half < r then (q + 1) * 2 ^ e
    else if q % 2 = 0 then q * 2 ^ e
    else (q + 1) * 2 ^ e

/-- A transaction receipt of `ethers` (`TransactionReceipt`), with the fields
the scripts read. -/
structure Receipt where
  status : Nat
  gasUsed : Nat
  blockNumber : Nat
  contractAddress : Option JsString
deriving DecidableEq, Repr

/-- The `transaction` object an `ethers` error may carry. -/
structure ErrorTransaction where
  from_ : Option JsString
  to_ : Option JsString
  data : Option JsString
deriving DecidableEq, Repr

/-- The constructor of a thrown error object. -/
inductive ErrorName where
  | Error
  | TypeError
  | ReferenceError
deriving DecidableEq, Repr

/-- A thrown value.  The collaborators and the engine throw `Error` objects;
the fields are the ones the handlers of the scripts read. -/
structure JsError where
  name : ErrorName
  message : JsString
  receipt : Option Receipt
  transaction : Option ErrorTransaction
  data : Option JsString
  reason : Option JsString
  info : Option JsString
deriving DecidableEq, Repr

/-- The object `new Error(message)`. -/
def newError (message : JsString) : JsError :=
  { name := .Error, message := message, receipt := none, transaction := none,
    data := none, reason := none, info := none }

/-- The `TypeError` the engine throws when a property is read from
`undefined`; the text is V8's. -/
def typeErrorReading (property : JsString) : JsError :=
  { name := .TypeError,
    message := js "Cannot read properties of undefined (reading \x27" ++ property ++ js "\x27)",
    receipt := none, transaction := none, data := none, reason := none, info := none }

/-- The `ReferenceError` the engine throws when an undeclared name is read. -/
def referenceError (ident : JsString) : JsError :=
  { name := .ReferenceError, message := ident ++ js " is not defined",
    receipt := none, transaction := none, data := none, reason := none, info := none }

/-- Truthiness of a string-or-undefined value: the empty string is falsy. -/
def truthyString (v : Option JsString) : Bool :=
  match v with
  | some s => !s.isEmpty
  | none => false

/-- A hexadecimal digit, in either case. -/
def isHexDigit (c : Nat) : Bool :=
  (48 ≤ c && c ≤ 57) || (65 ≤ c && c ≤ 70) || (97 ≤ c && c ≤ 102)

/-- The byte-string test of `ethers` (`getBytes`), the pattern
`/^0x([0-9a-f][0-9a-f])*$/i`: `0x` followed by an even number of hexadecimal
digits. -/
def isHexBytes (s : JsString) : Bool :=
  match s with
  | 48 :: x :: digits =>
    (x = 120 || x = 88) && digits.length % 2 = 0 && digits.all isHexDigit
  | _ => false

/-! ## The compiler interface -/

/-- The `optimizer` setting of a compile request. -/
structure Optimizer where
  enabled : Bool
  runs : Nat
deriving DecidableEq, Repr

/-- The `settings` of a compile request. -/
structure CompileSettings where
  outputSelection : List (JsString × List (JsString × List JsString))
  evmVersion : JsString
  optimizer : Option Optimizer
deriving DecidableEq, Repr

/-- The standard-JSON request given to `solc.compile`. -/
structure CompileRequest where
  language : JsString
  sources : List (JsString × JsString)
  settings : CompileSettings
deriving DecidableEq, Repr

/-- An entry of the `errors` list of the compiler output. -/
structure CompilerError where
  severity : JsString
  formattedMessage : JsString
deriving DecidableEq, Repr

/-- An ABI, as the ordered sequence of its descriptors. -/
abbrev Abi := List JsString

/-- The compiler output for one contract: `abi` and `evm.bytecode.object`. -/
structure ContractOutput where
  abi : Abi
  bytecodeObject : JsString
deriving DecidableEq, Repr

/-- The parsed output of `solc.compile`.  `errors` and `contracts` may be
absent; an object is the list of its keys and values. -/
structure CompilerOutput where
  errors : Option (List CompilerError)
  contracts : Option (List (JsString × List (JsString × ContractOutput)))
deriving DecidableEq, Repr

/-- The bytecode and ABI extracted for one contract. -/
structure Artifact where
  bytecode : JsString
  abi : Abi
deriving DecidableEq, Repr

/-! ## The network interface -/

/-- The options object passed to `deploy`, `getDeployTransaction` or a
contract method. -/
structure Overrides where
  gasLimit : Option Nat
  gasPrice : Option Nat
  type : Option Nat
deriving DecidableEq, Repr

/-- A transaction object handed to the wallet. -/
structure TransactionRequest where
  from_ : Option JsString
  to_ : Option JsString
  data : Option JsString
  gasLimit : Option Nat
  gasPrice : Option Nat
  nonce : Option Nat
  type : Option Nat
  chainId : Option Nat
deriving DecidableEq, Repr

/-- The handle `ethers` returns for a submitted transaction. -/
structure TransactionResponse where
  hash : JsString
deriving DecidableEq, Repr

/-- The contract object `factory.deploy` returns. -/
structure Contract where
  deploymentTransaction : TransactionResponse
deriving DecidableEq, Repr

/-- The contract object a method is invoked on: the one `factory.deploy`
returned, or `new ethers.Contract(address, abi, wallet)`. -/
inductive ContractRef where
  | deployed (c : Contract)
  | attached (address : JsString) (abi : Abi)
deriving DecidableEq, Repr

/-- An argument of a contract method or constructor. -/
inductive Arg where
  | num (n : Nat)
  | str (s : JsString)
deriving DecidableEq, Repr

/-- A call to a collaborator, with its arguments. -/
inductive Call where
  | readFileSync (path : JsString) (encoding : JsString)
  | compile (request : CompileRequest)
  | getNetwork
  | getBalance (address : JsString)
  | getBlockNumber
  | getFeeData
  | getTransactionCount (address : JsString) (blockTag : Option JsString)
  | getCode (address : JsString)
  | deploy (abi : Abi) (bytecode : JsString) (args : List Arg) (overrides : Option Overrides)
  | getDeployTransaction (abi : Abi) (bytecode : JsString) (overrides : Option Overrides)
  | waitForDeployment (c : Contract)
  | getAddress (c : Contract)
  | sendTransaction (tx : TransactionRequest)
  | signTransaction (tx : TransactionRequest)
  | broadcastTransaction (signedTx : JsString)
  | wait (tx : TransactionResponse)
  | send (c : ContractRef) (method : JsString) (args : List Arg) (overrides : Option Overrides)
  | read (c : ContractRef) (method : JsString) (args : List Arg)
deriving DecidableEq, Repr

/-- What a collaborator call returned. -/
inductive Value where
  | unit
  | num (n : Nat)
  | str (s : JsString)
  | feeData (gasPrice : Option Nat)
  | compiled (output : CompilerOutput)
  | contract (c : Contract)
  | request (tx : TransactionRequest)
  | response (tx : TransactionResponse)
  | receipt (r : Receipt)
deriving DecidableEq, Repr

/-- The outcome of a collaborator call: the promise fulfilled with a value
or rejected with an error (for a synchronous call: returned or threw). -/
inductive Outcome where
  | returned (v : Value)
  | threw (e : JsError)
deriving DecidableEq, Repr

/-- The console stream. -/
inductive Stream where
  | out
  | err
deriving DecidableEq, Repr

/-- One argument of a console call. -/
inductive LogArg where
  | text (s : String)
  | str (s : JsString)
  | optStr (s : Option JsString)
  | num (n : Nat)
  | bool (b : Bool)
  | ether (wei : Nat)
  | receipt (r : Receipt)
  | receiptSummary (status : Nat) (gasUsed : JsString) (blockNumber : Nat)
  | transaction (tx : TransactionRequest)
  | transactionData (from_ to_ : Option JsString) (data : JsString)
  | error (e : JsError)
deriving DecidableEq, Repr

/-- One observable step of a run. -/
inductive Event where
  | call (c : Call) (o : Outcome)
  | log (s : Stream) (args : List LogArg)
deriving DecidableEq, Repr

/-- The observable steps of a run, oldest first. -/
abbrev Trace := List Event

/-- The collaborators.  Every operation answers from its arguments and the
trace so far.  `invalidBytes` is the error `ethers` throws for a string that
is not a byte string; its message names the library version. -/
structure World where
  walletAddress : JsString
  readFileSync : Trace → JsString → JsString → Except JsError JsString
  compile : Trace → CompileRequest → Except JsError CompilerOutput
  getNetwork : Trace → Except JsError Nat
  getBalance : Trace → JsString → Except JsError Nat
  getBlockNumber : Trace → Except JsError Nat
  getFeeData : Trace → Except JsError (Option Nat)
  getTransactionCount : Trace → JsString → Option JsString → Except JsError Nat
  getCode : Trace → JsString → Except JsError JsString
  deploy : Trace → Abi → JsString → List Arg → Option Overrides → Except JsError Contract
  getDeployTransaction : Trace → Abi → JsString → Option Overrides →
    Except JsError TransactionRequest
  waitForDeployment : Trace → Contract → Except JsError Unit
  getAddress : Trace → Contract → Except JsError JsString
  sendTransaction : Trace → TransactionRequest → Except JsError TransactionResponse
  signTransaction : Trace → TransactionRequest → Except JsError JsString
  broadcastTransaction : Trace → JsString → Except JsError TransactionResponse
  wait : Trace → TransactionResponse → Except JsError Receipt
  send : Trace → ContractRef → JsString → List Arg → Option Overrides →
    Except JsError TransactionResponse
  read : Trace → ContractRef → JsString → List Arg → Except JsError Nat
  invalidBytes : JsString → JsError

/-! ## Scripts -/

/-- A script: from the trace so far to a result, returned or thrown, and the
extended trace. -/
def Script (α : Type) : Type := Trace → Except JsError α × Trace

namespace Script

/-- The script that returns `a`. -/
def ret {α : Type} (a : α) : Script α := fun tr => (.ok a, tr)

/-- Sequencing: an error of the first script skips the second. -/
def andThen {α β : Type} (m : Script α) (f : α → Script β) : Script β :=
  fun tr =>
    match m tr with
    | (.ok a, tr1) => f a tr1
    | (.error e, tr1) => (.error e, tr1)

/-- The statement `throw e`. -/
def raise {α : Type} (e : JsError) : Script α := fun tr => (.error e, tr)

/-- The statement `try { m } catch (e) { h e }`. -/
def attempt {α : Type} (m : Script α) (h : JsError → Script α) : Script α :=
  fun tr =>
    match m tr with
    | (.ok a, tr1) => (.ok a, tr1)
    | (.error e, tr1) => h e tr1

end Script

instance : Monad Script where
  pure := Script.ret
  bind := Script.andThen

instance : MonadExcept JsError Script where
  throw := Script.raise
  tryCatch := Script.attempt

/-- A collaborator call: the answer is a function of the trace so far, and
the call is recorded with its outcome. -/
def perform {α : Type} (c : Call) (answer : Trace → Except JsError α) (inj : α → Value) :
    Script α :=
  fun tr =>
    match answer tr with
    | .ok a => (.ok a, tr ++ [Event.call c (.returned (inj a))])
    | .error e => (.error e, tr ++ [Event.call c (.threw e)])

/-- The call `console.log(args)`. -/
def consoleLog (args : List LogArg) : Script Unit :=
  fun tr => (.ok (), tr ++ [Event.log .out args])

/-- The call `console.error(args)`. -/
def consoleError (args : List LogArg) : Script Unit :=
  fun tr => (.ok (), tr ++ [Event.log .err args])

/-- The trace of a run from the empty trace. -/
def Script.trace {α : Type} (m : Script α) : Trace := (m []).2

/-- The result of a run from the empty trace. -/
def Script.result {α : Type} (m : Script α) : Except JsError α := (m []).1

/-- An `Except` value as a script: return it or throw it. -/
def fromExcept {α : Type} (r : Except JsError α) : Script α :=
  match r with
  | .ok a => pure a
  | .error e => throw e

/-! ## The collaborator calls of the scripts -/

namespace World

/-- The call `fs.readFileSync(path, encoding)`. -/
def readFile (w : World) (path encoding : JsString) : Script JsString :=
  perform (.readFileSync path encoding) (fun tr => w.readFileSync tr path encoding) .str

/-- The call `JSON.parse(solc.compile(JSON.stringify(input)))`. -/
def solc (w : World) (input : CompileRequest) : Script CompilerOutput :=
  perform (.compile input) (fun tr => w.compile tr input) .compiled

/-- The call `provider.getNetwork()`; the answer is `network.chainId`. -/
def network (w : World) : Script Nat :=
  perform .getNetwork (fun tr => w.getNetwork tr) .num

/-- The call `provider.getBalance(address)`. -/
def balance (w : World) (address : JsString) : Script Nat :=
  perform (.getBalance address) (fun tr => w.getBalance tr address) .num

/-- The call `provider.getBlockNumber()`. -/
def blockNumber (w : World) : Script Nat :=
  perform .getBlockNumber (fun tr => w.getBlockNumber tr) .num

/-- The call `provider.getFeeData()`; the answer is its `gasPrice`. -/
def feeData (w : World) : Script (Option Nat) :=
  perform .getFeeData (fun tr => w.getFeeData tr) .feeData

/-- The call `provider.getTransactionCount(address, blockTag)`. -/
def transactionCount (w : World) (address : JsString) (blockTag : Option JsString) :
    Script Nat :=
  perform (.getTransactionCount address blockTag)
    (fun tr => w.getTransactionCount tr address blockTag) .num

/-- The call `provider.getCode(address)`. -/
def code (w : World) (address : JsString) : Script JsString :=
  perform (.getCode address) (fun tr => w.getCode tr address) .str

/-- The call `new ethers.ContractFactory(abi, bytecode, wallet).deploy(args, overrides)`:
the factory and its deployment, as one call of the library. -/
def factoryDeploy (w : World) (abi : Abi) (bytecode : JsString) (args : List Arg)
    (overrides : Option Overrides) : Script Contract :=
  perform (.deploy abi bytecode args overrides)
    (fun tr => w.deploy tr abi bytecode args overrides) .contract

/-- The call `factory.getDeployTransaction(overrides)`. -/
def deployTransaction (w : World) (abi : Abi) (bytecode : JsString)
    (overrides : Option Overrides) : Script TransactionRequest :=
  perform (.getDeployTransaction abi bytecode overrides)
    (fun tr => w.getDeployTransaction tr abi bytecode overrides) .request

/-- The call `contract.waitForDeployment()`. -/
def deployed (w : World) (c : Contract) : Script Unit :=
  perform (.waitForDeployment c) (fun tr => w.waitForDeployment tr c) (fun _ => .unit)

/-- The call `contract.getAddress()`. -/
def address (w : World) (c : Contract) : Script JsString :=
  perform (.getAddress c) (fun tr => w.getAddress tr c) .str

/-- The call `wallet.sendTransaction(tx)`. -/
def walletSend (w : World) (tx : TransactionRequest) : Script TransactionResponse :=
  perform (.sendTransaction tx) (fun tr => w.sendTransaction tr tx) .response

/-- The call `wallet.signTransaction(tx)`. -/
def walletSign (w : World) (tx : TransactionRequest) : Script JsString :=
  perform (.signTransaction tx) (fun tr => w.signTransaction tr tx) .str

/-- The call `provider.broadcastTransaction(signedTx)`. -/
def broadcast (w : World) (signedTx : JsString) : Script TransactionResponse :=
  perform (.broadcastTransaction signedTx) (fun tr => w.broadcastTransaction tr signedTx)
    .response

/-- The call `tx.wait()`. -/
def waitFor (w : World) (tx : TransactionResponse) : Script Receipt :=
  perform (.wait tx) (fun tr => w.wait tr tx) .receipt

/-- A state-changing contract method, `contract.method(args, overrides)`. -/
def invoke (w : World) (c : ContractRef) (method : JsString) (args : List Arg)
    (overrides : Option Overrides) : Script TransactionResponse :=
  perform (.send c method args overrides) (fun tr => w.send tr c method args overrides)
    .response

/-- A read-only contract method, `contract.method(args)`. -/
def view (w : World) (c : ContractRef) (method : JsString) (args : List Arg) : Script Nat :=
  perform (.read c method args) (fun tr => w.read tr c method args) .num

/-- The constructor `new ethers.ContractFactory(abi, bytecode, wallet)` on a
bytecode given as a string: a string without the `0x` prefix is given one,
and the constructor throws when the string is then not a byte string.  It
calls no collaborator. -/
def contractFactory (w : World) (bytecode : JsString) : Script Unit :=
  let bytes := if bytecode.take 2 = js "0x" then bytecode else js "0x" ++ bytecode
  if isHexBytes bytes then pure () else throw (w.invalidBytes bytes)

end World

/-- The options object with `gasLimit` and `gasPrice`. -/
def gasOptions (gasLimit gasPrice : Nat) : Overrides :=
  { gasLimit := some gasLimit, gasPrice := some gasPrice, type := none }

/-- The value `output.contracts[file][name]`, or the `TypeError` of reading a
property of `undefined`.  A missing `contracts[file][name]` is `undefined`
and throws when `evm` is read from it. -/
def contractEntry (output : CompilerOutput) (file name : JsString) :
    Except JsError ContractOutput :=
  match output.contracts with
  | none => .error (typeErrorReading file)
  | some files =>
    match files.lookup file with
    | none => .error (typeErrorReading name)
    | some contracts =>
      match contracts.lookup name with
      | none => .error (typeErrorReading (js "evm"))
      | some contract => .ok contract

/-! ## `compile-and-deploy.js` -/

namespace CompileAndDeploy

/-- The compile request `input`. -/
def compileInput (contractSource : JsString) : CompileRequest :=
  { language := js "Solidity",
    sources := [(js "SimpleStorage.sol", contractSource)],
    settings :=
      { outputSelection := [(js "*", [(js "*", [js "*"])])],
        evmVersion := js "london",
        optimizer := none } }

/-- The loop `output.errors.forEach(...)`: prints every entry of severity
`error`. -/
def reportErrors : List CompilerError → Script Unit
  | [] => pure ()
  | err :: rest => do
    if err.severity = js "error" then
      consoleError [.text "Compilation error:", .str err.formattedMessage]
    reportErrors rest

/-- The statement `if (output.errors) { output.errors.forEach(...) }`. -/
def reportCompilation (output : CompilerOutput) : Script Unit :=
  match output.errors with
  | some errs => reportErrors errs
  | none => pure ()

/-- The lines the error loop prints for a compiler output. -/
def errorLines (output : CompilerOutput) : Trace :=
  ((output.errors.getD []).filter (fun err => err.severity = js "error")).map
    (fun err => Event.log .err [.text "Compilation error:", .str err.formattedMessage])

/-- The flag `deployedCode.length > 2`. -/
def codeExists (deployedCode : JsString) : Bool := decide (deployedCode.length > 2)

/-- The `data` field of the object printed for a failed transaction,
`error.transaction.data?.substring(0, 100) + "..."`. -/
def reportedData (data : Option JsString) : JsString :=
  plusString (data.map (fun d => substring0 d 100)) (js "...")

/-- The `try` block of `compileAndDeploy`. -/
def body (w : World) : Script Unit := do
  let contractSource ← w.readFile (js "SimpleStorage.sol") (js "utf8")
  let input := compileInput contractSource
  consoleLog [.text "Compiling contract..."]
  let output ← w.solc input
  reportCompilation output
  let contract ← fromExcept (contractEntry output (js "SimpleStorage.sol") (js "SimpleStorage"))
  let bytecode := js "0x" ++ contract.bytecodeObject
  let abi := contract.abi
  consoleLog [.text "Contract compiled successfully"]
  consoleLog [.text "Bytecode length:", .num bytecode.length]
  let balance ← w.balance w.walletAddress
  consoleLog [.text "\nWallet address:", .str w.walletAddress]
  consoleLog [.text "Balance:", .ether balance, .text "ETH"]
  let network ← w.network
  consoleLog [.text "Chain ID:", .num network]
  consoleLog [.text "\nDeploying contract..."]
  let deploymentOptions := gasOptions 3000000 0
  let deployedContract ← w.factoryDeploy abi bytecode [] (some deploymentOptions)
  consoleLog [.text "Transaction hash:", .str deployedContract.deploymentTransaction.hash]
  consoleLog [.text "Waiting for deployment..."]
  w.deployed deployedContract
  let contractAddress ← w.address deployedContract
  consoleLog [.text "Contract deployed to:", .str contractAddress]
  let deployedCode ← w.code contractAddress
  consoleLog [.text "Deployed code exists:", .bool (codeExists deployedCode)]
  consoleLog [.text "\nTesting contract..."]
  consoleLog [.text "Storing value 42..."]
  let storeTx ← w.invoke (.deployed deployedContract) (js "store") [.num 42]
    (some (gasOptions 100000 0))
  consoleLog [.text "Store transaction hash:", .str storeTx.hash]
  let storeReceipt ← w.waitFor storeTx
  consoleLog [.text "Store transaction status:", .num storeReceipt.status]
  let value ← w.view (.deployed deployedContract) (js "retrieve") []
  consoleLog [.text "Retrieved value:", .str (decimal value)]
  let number ← w.view (.deployed deployedContract) (js "number") []
  consoleLog [.text "Public variable \x27number\x27:", .str (decimal number)]

/-- The statement `if (error.receipt) { ... }` of the `catch` block. -/
def reportReceipt (receipt : Option Receipt) : Script Unit :=
  match receipt with
  | some receipt => do
    consoleError [.text "Transaction failed!"]
    consoleError [.text "Status:", .num receipt.status]
    consoleError [.text "Gas used:", .str (decimal receipt.gasUsed)]
    consoleError [.text "Block number:", .num receipt.blockNumber]
  | none => pure ()

/-- The statement `if (error.transaction) { ... }` of the `catch` block. -/
def reportTransaction (transaction : Option ErrorTransaction) : Script Unit :=
  match transaction with
  | some transaction =>
    consoleError [.text "Failed transaction data:",
      .transactionData transaction.from_ transaction.to_ (reportedData transaction.data)]
  | none => pure ()

/-- The `catch` block of `compileAndDeploy`. -/
def handler (error : JsError) : Script Unit := do
  consoleError [.text "\nError:", .str error.message]
  reportReceipt error.receipt
  reportTransaction error.transaction

/-- The lines the `catch` block prints for a receipt. -/
def receiptLines (receipt : Option Receipt) : Trace :=
  match receipt with
  | some receipt =>
    [.log .err [.text "Transaction failed!"],
     .log .err [.text "Status:", .num receipt.status],
     .log .err [.text "Gas used:", .str (decimal receipt.gasUsed)],
     .log .err [.text "Block number:", .num receipt.blockNumber]]
  | none => []

/-- The line the `catch` block prints for a transaction. -/
def transactionLines (transaction : Option ErrorTransaction) : Trace :=
  match transaction with
  | some transaction =>
    [.log .err [.text "Failed transaction data:",
      .transactionData transaction.from_ transaction.to_ (reportedData transaction.data)]]
  | none => []

/-- The lines the `catch` block prints. -/
def handlerLines (error : JsError) : Trace :=
  .log .err [.text "\nError:", .str error.message] ::
    (receiptLines error.receipt ++ transactionLines error.transaction)

/-- The function `compileAndDeploy()`. -/
def compileAndDeploy (w : World) : Script Unit :=
  tryCatch (body w) handler

end CompileAndDeploy

/-! ## `deploy-solution.js` -/

namespace DeploySolution

/-- The compile request `input` of `deployContract`. -/
def compileInput (contractSource contractName : JsString) : CompileRequest :=
  { language := js "Solidity",
    sources := [(contractName ++ js ".sol", contractSource)],
    settings :=
      { outputSelection := [(js "*", [(js "*", [js "*"])])],
        evmVersion := js "london",
        optimizer := some { enabled := true, runs := 200 } } }

/-- The check for compilation errors of `deployContract`: throws on the
first entry of severity `error`. -/
def checkErrors (output : CompilerOutput) : Except JsError Unit :=
  match output.errors with
  | none => .ok ()
  | some errs =>
    let errors := errs.filter (fun err => err.severity = js "error")
    match errors with
    | first :: _ =>
      .error (newError (js "Compilation failed: " ++ first.formattedMessage))
    | [] => .ok ()

/-- The statement `if (output.errors) { ... throw ... }` of `deployContract`. -/
def throwOnErrors (output : CompilerOutput) : Script Unit :=
  fromExcept (checkErrors output)

/-- The function `deployContract(contractSource, contractName)`. -/
def deployContract (w : World) (contractSource contractName : JsString) : Script Artifact := do
  let input := compileInput contractSource contractName
  let output ← w.solc input
  throwOnErrors output
  let contract ← fromExcept (contractEntry output (contractName ++ js ".sol") contractName)
  return { bytecode := js "0x" ++ contract.bytecodeObject, abi := contract.abi }

/-- The text `"=".repeat(60)`. -/
def rule : String := String.mk (List.replicate 60 '=')

/-- The constant `simpleStorageSource`. -/
def simpleStorageSource : JsString := js "
    // SPDX-License-Identifier: MIT
    pragma solidity ^0.8.0;
    
    contract SimpleStorage \x7b
        uint256 public number;
        event NumberChanged(uint256 newNumber, address changedBy);
        
        function store(uint256 num) public \x7b
            number = num;
            emit NumberChanged(num, msg.sender);
        \x7d
        
        function retrieve() public view returns (uint256) \x7b
            return number;
        \x7d
        
        function increment() public \x7b
            number++;
            emit NumberChanged(number, msg.sender);
        \x7d
    \x7d"

/-- The constant `tokenSource`. -/
def tokenSource : JsString := js "
    // SPDX-License-Identifier: MIT
    pragma solidity ^0.8.0;
    
    contract SimpleToken \x7b
        mapping(address => uint256) public balances;
        uint256 public totalSupply;
        string public name = \"SimpleToken\";
        string public symbol = \"STK\";
        uint8 public decimals = 18;
        
        event Transfer(address indexed from, address indexed to, uint256 value);
        
        constructor(uint256 _initialSupply) \x7b
            totalSupply = _initialSupply * 10 ** uint256(decimals);
            balances[msg.sender] = totalSupply;
        \x7d
        
        function balanceOf(address account) public view returns (uint256) \x7b
            return balances[account];
        \x7d
        
        function transfer(address to, uint256 amount) public returns (bool) \x7b
            require(balances[msg.sender] >= amount, \"Insufficient balance\");
            balances[msg.sender] -= amount;
            balances[to] += amount;
            emit Transfer(msg.sender, to, amount);
            return true;
        \x7d
    \x7d"

/-- The constant `recipientAddress`. -/
def recipientAddress : JsString := js "0x627306090abaB3A6e1400e9345bC60c78a8BEf57"

/-- The constant `transferAmount`, `ethers.parseEther("100")`: 100 units of
18 decimals. -/
def transferAmount : Nat := 100 * 10 ^ 18

/-- The first example of `main`: the SimpleStorage contract. -/
def storageExample (w : World) : Script JsString := do
  consoleLog [.text ("\n" ++ rule)]
  consoleLog [.text "Example 1: Simple Storage Contract"]
  consoleLog [.text rule]
  let artifact ← deployContract w simpleStorageSource (js "SimpleStorage")
  let storageBytecode := artifact.bytecode
  let storageAbi := artifact.abi
  consoleLog [.text "\nDeploying SimpleStorage contract..."]
  let storageContract ← w.factoryDeploy storageAbi storageBytecode [] (some (gasOptions 3000000 0))
  w.deployed storageContract
  let storageAddress ← w.address storageContract
  consoleLog [.text "✓ SimpleStorage deployed to:", .str storageAddress]
  consoleLog [.text "\nTesting SimpleStorage contract:"]
  let storeTx ← w.invoke (.deployed storageContract) (js "store") [.num 100]
    (some (gasOptions 100000 0))
  let _ ← w.waitFor storeTx
  consoleLog [.text "✓ Stored value: 100"]
  let retrievedValue ← w.view (.deployed storageContract) (js "retrieve") []
  consoleLog [.text "✓ Retrieved value:", .str (decimal retrievedValue)]
  let incrementTx ← w.invoke (.deployed storageContract) (js "increment") []
    (some (gasOptions 100000 0))
  let _ ← w.waitFor incrementTx
  let newValue ← w.view (.deployed storageContract) (js "number") []
  consoleLog [.text "✓ After increment:", .str (decimal newValue)]
  return storageAddress

/-- The second example of `main`: the SimpleToken contract. -/
def tokenExample (w : World) : Script JsString := do
  consoleLog [.text ("\n" ++ rule)]
  consoleLog [.text "Example 2: Simple Token Contract"]
  consoleLog [.text rule]
  let artifact ← deployContract w tokenSource (js "SimpleToken")
  let tokenBytecode := artifact.bytecode
  let tokenAbi := artifact.abi
  consoleLog [.text "\nDeploying SimpleToken contract..."]
  let tokenContract ← w.factoryDeploy tokenAbi tokenBytecode [.num 1000000]
    (some (gasOptions 3000000 0))
  w.deployed tokenContract
  let tokenAddress ← w.address tokenContract
  consoleLog [.text "✓ SimpleToken deployed to:", .str tokenAddress]
  consoleLog [.text "\nTesting SimpleToken contract:"]
  let tokenBalance ← w.view (.deployed tokenContract) (js "balanceOf") [.str w.walletAddress]
  consoleLog [.text "✓ Initial balance:", .ether tokenBalance, .text "STK"]
  let transferTx ← w.invoke (.deployed tokenContract) (js "transfer")
    [.str recipientAddress, .num transferAmount] (some (gasOptions 100000 0))
  let _ ← w.waitFor transferTx
  consoleLog [.text "✓ Transferred 100 STK to:", .str recipientAddress]
  let recipientBalance ← w.view (.deployed tokenContract) (js "balanceOf")
    [.str recipientAddress]
  consoleLog [.text "✓ Recipient balance:", .ether recipientBalance, .text "STK"]
  let senderBalance ← w.view (.deployed tokenContract) (js "balanceOf") [.str w.walletAddress]
  consoleLog [.text "✓ Sender balance after transfer:", .ether senderBalance, .text "STK"]
  return tokenAddress

/-- The closing summary of `main`. -/
def summary (storageAddress tokenAddress : JsString) : Script Unit := do
  consoleLog [.text ("\n" ++ rule)]
  consoleLog [.text "Deployment Summary"]
  consoleLog [.text rule]
  consoleLog [.text "\n✅ Successfully deployed and tested contracts:"]
  consoleLog [.text "   1. SimpleStorage at:", .str storageAddress]
  consoleLog [.text "   2. SimpleToken at:", .str tokenAddress]
  consoleLog [.text "\n📝 Key Configuration for Quorum with CLIQUE consensus:"]
  consoleLog [.text "   - Chain ID: 1337"]
  consoleLog [.text "   - Gas Price: 0 (free gas)"]
  consoleLog [.text "   - EVM Version: London"]
  consoleLog [.text "   - Block time: ~15 seconds"]
  consoleLog [.text "\n💡 Tips for successful contract deployment:"]
  consoleLog [.text "   - Always use gas price of 0 for this private network"]
  consoleLog [.text "   - Compile with London EVM version or earlier"]
  consoleLog [.text
    "   - Set reasonable gas limits (3M for deployment, 100K for transactions)"]
  consoleLog [.text "   - Wait for transaction receipts to ensure mining"]

/-- The `try` block of `main`. -/
def body (w : World) : Script Unit := do
  consoleLog [.text rule]
  consoleLog [.text "Quorum Private Blockchain - Smart Contract Deployment"]
  consoleLog [.text rule]
  let network ← w.network
  let balance ← w.balance w.walletAddress
  let blockNumber ← w.blockNumber
  consoleLog [.text "\nNetwork Information:"]
  consoleLog [.text "  Chain ID:", .num network]
  consoleLog [.text "  Current Block:", .num blockNumber]
  consoleLog [.text "\nWallet Information:"]
  consoleLog [.text "  Address:", .str w.walletAddress]
  consoleLog [.text "  Balance:", .ether balance, .text "ETH"]
  let storageAddress ← storageExample w
  let tokenAddress ← tokenExample w
  summary storageAddress tokenAddress

/-- The `catch` block of `main`. -/
def handler (error : JsError) : Script Unit := do
  consoleError [.text "\n❌ Error:", .str error.message]
  match error.receipt with
  | some receipt =>
    consoleError [.text "Transaction Receipt:",
      .receiptSummary receipt.status (decimal receipt.gasUsed) receipt.blockNumber]
  | none => pure ()

/-- The lines the `catch` block of `main` prints. -/
def handlerLines (error : JsError) : Trace :=
  .log .err [.text "\n❌ Error:", .str error.message] ::
    match error.receipt with
    | some receipt =>
      [.log .err [.text "Transaction Receipt:",
        .receiptSummary receipt.status (decimal receipt.gasUsed) receipt.blockNumber]]
    | none => []

/-- The function `main()`. -/
def main (w : World) : Script Unit :=
  tryCatch (body w) handler

/-- The top level of the file, `main().catch(console.error)`. -/
def run (w : World) : Script Unit :=
  tryCatch (main w) (fun error => consoleError [.error error])

end DeploySolution

/-! ## `test-deploy.js` -/

namespace TestDeploy

/-- The constant `abi`. -/
def abi : Abi :=
  [js "function store(uint256 num) public",
   js "function retrieve() public view returns (uint256)"]

/-- The constant `bytecode`. -/
def bytecode : JsString := js (
    "0x608060405234801561001057600080fd5b50610150806100206000396000f3fe60806040523480" ++
    "1561001057600080fd5b50600436106100365760003560e01c80632e64cec11461003b5780636057" ++
    "361d14610059575b600080fd5b610043610075565b6040516100509190610090565b604051809103" ++
    "90f35b610073600480360381019061006e91906100dc565b61007e565b005b60008054905090565b" ++
    "8060008190555050565b610089816100f0565b82525050565b60006020820190506100a560008301" ++
    "84610080565b92915050565b600080fd5b6100b9816100f0565b81146100c457600080fd5b50565b" ++
    "6000813590506100d6816100b0565b92915050565b6000602082840312156100f2576100f16100ab" ++
    "565b5b6000610100848285016100c7565b91505092915050565b6000819050919050565b61011d81" ++
    "6100f0565b811461012857600080fd5b5056fea26469706673582212208a76097aefa85bdc088e33" ++
    "39874f64c9ee5c2eef3bb82bb5cccecff8e91ab67f64736f6c634300081a0033")

/-- The `try` block of `testDeploy`. -/
def body (w : World) : Script Unit := do
  consoleLog [.text "Wallet address:", .str w.walletAddress]
  let balance ← w.balance w.walletAddress
  consoleLog [.text "Balance:", .ether balance, .text "ETH"]
  let network ← w.network
  consoleLog [.text "Chain ID:", .num network]
  let gasPrice ← w.feeData
  consoleLog [.text "Gas price:", .optStr (gasPrice.map decimal)]
  consoleLog [.text "\nDeploying contract..."]
  let contract ← w.factoryDeploy abi bytecode [] (some (gasOptions 3000000 0))
  consoleLog [.text "Transaction hash:", .str contract.deploymentTransaction.hash]
  consoleLog [.text "Waiting for deployment..."]
  w.deployed contract
  let address ← w.address contract
  consoleLog [.text "Contract deployed to:", .str address]
  consoleLog [.text "\nTesting contract interaction..."]
  let tx ← w.invoke (.deployed contract) (js "store") [.num 42] (some (gasOptions 100000 0))
  consoleLog [.text "Store transaction hash:", .str tx.hash]
  let _ ← w.waitFor tx
  let value ← w.view (.deployed contract) (js "retrieve") []
  consoleLog [.text "Retrieved value:", .str (decimal value)]

/-- The `catch` block of `testDeploy`. -/
def handler (error : JsError) : Script Unit := do
  consoleError [.text "Error:", .error error]
  if truthyString error.data then
    consoleError [.text "Error data:", .optStr error.data]
  if truthyString error.reason then
    consoleError [.text "Error reason:", .optStr error.reason]

/-- The lines the `catch` block of `testDeploy` prints. -/
def handlerLines (error : JsError) : Trace :=
  .log .err [.text "Error:", .error error] ::
    ((if truthyString error.data then [.log .err [.text "Error data:", .optStr error.data]]
      else []) ++
     (if truthyString error.reason then [.log .err [.text "Error reason:", .optStr error.reason]]
      else []))

/-- The function `testDeploy()`. -/
def testDeploy (w : World) : Script Unit :=
  tryCatch (body w) handler

end TestDeploy

/-! ## `test-with-chainid.js` -/

namespace TestWithChainId

/-- The constant `bytecode`: `0x` followed by 545 hexadecimal digits. -/
def bytecode : JsString := js (
    "0x608060405234801561001057600080fd5b5060f78061001f6000396000f3fe6080604052348015" ++
    "600f57600080fd5b5060043610603c5760003560e01c80632e64cec11460415780636057361d1460" ++
    "53575b600080fd5b60005460405190151581526020015b60405180910390f35b605e605f36600460" ++
    "613b565b600055565b005b600035600e565b606f81606a565b8114607957600080fd5b50565b6000" ++
    "81359050608881606681565b92915050565b600060208284031215609f57609e60615760a9565b60" ++
    "0060ab84828501607c565b91505092915050565bfea26469706673582212207c5b0e8f361b69ba8b" ++
    "98056ea17bb88b8f5b2e8df3e8e35e5cf64c10c68e9ff64736f6c63430008000033")

/-- The constant `abi`. -/
def abi : Abi :=
  [js "function retrieve() public view returns (uint256)",
   js "function store(uint256 num) public"]

/-- The options of `getDeployTransaction`: 1 gwei, legacy type. -/
def deployOptions : Overrides :=
  { gasLimit := some 3000000, gasPrice := some 1000000000, type := some 0 }

/-- The value `data.length`, or the `TypeError` of reading `length` from
`undefined`. -/
def lengthOf (data : Option JsString) : Except JsError Nat :=
  match data with
  | some data => .ok data.length
  | none => .error (typeErrorReading (js "length"))

/-- The block guarded by `receipt.status === 1 && receipt.contractAddress`. -/
def interact (w : World) (contractAddress : JsString) : Script Unit := do
  consoleLog [.text "\nContract deployed successfully!"]
  let contract := ContractRef.attached contractAddress abi
  consoleLog [.text "\nStoring value 42..."]
  let storeTx ← w.invoke contract (js "store") [.num 42] (some (gasOptions 100000 1000000000))
  let _ ← w.waitFor storeTx
  consoleLog [.text "Value stored!"]
  let value ← w.view contract (js "retrieve") []
  consoleLog [.text "Retrieved value:", .str (decimal value)]

/-- The `try` block of `testWithChainId`.  The factory is constructed from
the constant `bytecode` before the deployment request is built. -/
def body (w : World) : Script Unit := do
  let network ← w.network
  consoleLog [.text "Network chainId:", .num network]
  consoleLog [.text "Wallet address:", .str w.walletAddress]
  consoleLog [.text "\nDeploying contract..."]
  w.contractFactory bytecode
  let deployTx ← w.deployTransaction abi bytecode (some deployOptions)
  let dataLength ← fromExcept (lengthOf deployTx.data)
  consoleLog [.text "Deploy transaction data length:", .num dataLength]
  let tx ← w.walletSend { deployTx with chainId := some (bigintToNumber network) }
  consoleLog [.text "Transaction hash:", .str tx.hash]
  let receipt ← w.waitFor tx
  consoleLog [.text "Receipt status:", .num receipt.status]
  consoleLog [.text "Contract address:", .optStr receipt.contractAddress]
  consoleLog [.text "Gas used:", .str (decimal receipt.gasUsed)]
  match receipt.contractAddress with
  | some contractAddress =>
    if receipt.status = 1 ∧ contractAddress ≠ [] then
      interact w contractAddress
  | none => pure ()

/-- The statement `if (error.receipt) { ... }` of the `catch` block. -/
def reportReceipt (receipt : Option Receipt) : Script Unit :=
  match receipt with
  | some receipt => do
    consoleLog [.text "Receipt status:", .num receipt.status]
    consoleLog [.text "Gas used:", .str (decimal receipt.gasUsed)]
  | none => pure ()

/-- The `catch` block of `testWithChainId`. -/
def handler (error : JsError) : Script Unit := do
  consoleError [.text "Error:", .str error.message]
  reportReceipt error.receipt
  if truthyString error.reason then
    consoleLog [.text "Revert reason:", .optStr error.reason]

/-- The lines the `catch` block of `testWithChainId` prints. -/
def handlerLines (error : JsError) : Trace :=
  .log .err [.text "Error:", .str error.message] ::
    ((match error.receipt with
      | some receipt =>
        [.log .out [.text "Receipt status:", .num receipt.status],
         .log .out [.text "Gas used:", .str (decimal receipt.gasUsed)]]
      | none => []) ++
     (if truthyString error.reason then [.log .out [.text "Revert reason:", .optStr error.reason]]
      else []))

/-- The function `testWithChainId()`. -/
def testWithChainId (w : World) : Script Unit :=
  tryCatch (body w) handler

end TestWithChainId

/-! ## `deploy.js` -/

namespace Deploy

/-- The constant `abi`. -/
def abi : Abi :=
  [js "function setValue(uint256 _value) public",
   js "function getValue() public view returns (uint256)"]

/-- The constant `bytecode`. -/
def bytecode : JsString := js (
    "0x608060405234801561001057600080fd5b50610150806100206000396000f3fe60806040523480" ++
    "1561001057600080fd5b50600436106100365760003560e01c80632e64cec11461003b578063d09d" ++
    "e08a14610059575b600080fd5b610043610075565b60405161005091906100a9565b604051809103" ++
    "90f35b610073600480360361006c5760003573ffffffffffffffffffffffffffffffffffffffff16" ++
    "906020019091905050610094565b005b60008054905090565b806000819055505b50565b60008190" ++
    "50919050565b610095816100828356fe")

/-- The function `deployContract()`.  Its last statement reads the name
`value`, which is declared nowhere. -/
def deployContract (w : World) : Script Unit := do
  consoleLog [.text "Deploying contract..."]
  let contract ← w.factoryDeploy abi bytecode [] none
  w.deployed contract
  let address ← w.address contract
  consoleLog [.text "Contract deployed to:", .str address]
  consoleLog [.text "Setting value to 100"]
  let _ ← w.invoke (.deployed contract) (js "setValue") [.num 100] none
  let _val ← w.view (.deployed contract) (js "getValue") []
  throw (referenceError (js "value"))

/-- The top level of the file, `deployContract().catch(...)`. -/
def run (w : World) : Script Unit :=
  tryCatch (deployContract w)
    (fun error => consoleError [.text "Error deploying contract:", .error error])

end Deploy

/-! ## `test-simple-contract.js` -/

namespace TestSimpleContract

/-- The constant `bytecode`. -/
def bytecode : JsString := js (
    "0x608060405234801561001057600080fd5b5060646000819055506101128061002960003960006f" ++
    "3fe6080604052348015600f57600080fd5b506004361060325760003560e01c80632a1afcd914603" ++
    "75780636057361d14604c575b600080fd5b60005460405190151581526020015b60405180910390f" ++
    "35b6057605736600460595b600055565b005b600035600e565b6000819050919050565b606e81605" ++
    "f565b8114607857600080fd5b50565b600081359050608881606581565b92915050565b600060208" ++
    "284031215609f57609e605a5760a95760ab565b600060b684828501607b565b91505092915050565" ++
    "b600060ca82605f565b91507ffffffffffffffffffffffffffffffffffffffffffffffffffffffff" ++
    "fffffffff820160fb5760fa60fc565b5b600182019050919050565bfe7f4e487b710000000000000" ++
    "0000000000000000000000000000000000000000000600052601160045260246000fdfea26469706" ++
    "673582212207c32e0fd361b69ba8b98056ea17bb88b8f5b2e8df3e8e35e5cf64c10c68e9ff64736f" ++
    "6c63430008130033")

/-- The constant `abi`. -/
def abi : Abi :=
  [js "function storedData() public view returns (uint256)",
   js "function set(uint256 x) public",
   js "function get() public view returns (uint256)"]

/-- The flag `code.length > 2`. -/
def codeExists (code : JsString) : Bool := decide (code.length > 2)

/-- The first inner `try`: read the initial value with `get()`. -/
def readGet (w : World) (contract : Contract) : Script Unit :=
  tryCatch
    (do
      let initialValue ← w.view (.deployed contract) (js "get") []
      consoleLog [.text "Initial value from get():", .str (decimal initialValue)])
    (fun e => consoleLog [.text "Error reading with get():", .str e.message])

/-- The second inner `try`: read the initial value with `storedData()`. -/
def readStoredData (w : World) (contract : Contract) : Script Unit :=
  tryCatch
    (do
      let storedValue ← w.view (.deployed contract) (js "storedData") []
      consoleLog [.text "Initial value from storedData():", .str (decimal storedValue)])
    (fun e => consoleLog [.text "Error reading storedData:", .str e.message])

/-- The `try` block of the `set(42)` step. -/
def setBody (w : World) (contract : Contract) : Script Unit := do
  let tx ← w.invoke (.deployed contract) (js "set") [.num 42] (some (gasOptions 500000 0))
  consoleLog [.text "Transaction sent:", .str tx.hash]
  let receipt ← w.waitFor tx
  consoleLog [.text "Transaction mined, status:", .num receipt.status]
  consoleLog [.text "Gas used:", .str (decimal receipt.gasUsed)]
  if receipt.status = 1 then
    let newValue ← w.view (.deployed contract) (js "get") []
    consoleLog [.text "New value:", .str (decimal newValue)]

/-- The `catch` block of the `set(42)` step. -/
def setHandler (e : JsError) : Script Unit := do
  consoleLog [.text "Error in set transaction:", .str e.message]
  match e.receipt with
  | some receipt =>
    consoleLog [.text "Receipt status:", .num receipt.status]
    consoleLog [.text "Gas used:", .str (decimal receipt.gasUsed)]
  | none => pure ()

/-- The `set(42)` step. -/
def setStep (w : World) (contract : Contract) : Script Unit :=
  tryCatch (setBody w contract) setHandler

/-- The outer `try` block of `testSimpleContract`. -/
def body (w : World) : Script Unit := do
  consoleLog [.text "Wallet address:", .str w.walletAddress]
  let blockNumber ← w.blockNumber
  consoleLog [.text "Current block:", .num blockNumber]
  consoleLog [.text "\nDeploying SimpleStorage contract..."]
  let contract ← w.factoryDeploy abi bytecode [] (some (gasOptions 5000000 0))
  consoleLog [.text "Transaction hash:", .str contract.deploymentTransaction.hash]
  w.deployed contract
  let address ← w.address contract
  consoleLog [.text "Contract deployed to:", .str address]
  let code ← w.code address
  consoleLog [.text "Contract code exists:", .bool (codeExists code)]
  consoleLog [.text "\nReading initial value..."]
  readGet w contract
  readStoredData w contract
  consoleLog [.text "\nSetting new value to 42..."]
  setStep w contract

/-- The outer `catch` block of `testSimpleContract`; `info` stands for the
printed `error.info` object. -/
def handler (error : JsError) : Script Unit := do
  consoleError [.text "Error:", .str error.message]
  match error.info with
  | some info => consoleError [.text "Error info:", .str info]
  | none => pure ()

/-- The lines the `catch` block of the `set(42)` step prints. -/
def setHandlerLines (e : JsError) : Trace :=
  .log .out [.text "Error in set transaction:", .str e.message] ::
    match e.receipt with
    | some receipt =>
      [.log .out [.text "Receipt status:", .num receipt.status],
       .log .out [.text "Gas used:", .str (decimal receipt.gasUsed)]]
    | none => []

/-- The lines the outer `catch` block of `testSimpleContract` prints. -/
def handlerLines (error : JsError) : Trace :=
  .log .err [.text "Error:", .str error.message] ::
    match error.info with
    | some info => [.log .err [.text "Error info:", .str info]]
    | none => []

/-- The function `testSimpleContract()`. -/
def testSimpleContract (w : World) : Script Unit :=
  tryCatch (body w) handler

end TestSimpleContract

/-! ## `test-evm-check.js` -/

namespace TestEvmCheck

/-- The constant `simplestBytecode` (unused by the script). -/
def simplestBytecode : JsString := js (
    "0x6080604052348015600f57600080fd5b50603f80601d6000396000f3fe6080604052600080fdfe" ++
    "a265627a7a72315820e5bb6e8f5e9b7f68c917e9a6b4e8e8f5e9b7f68c917e9a6b4e8e8f5e9b7f68" ++
    "c64736f6c63430005110032")

/-- The constant `minimalBytecode`. -/
def minimalBytecode : JsString := js "0x602a60005260206000f3"

/-- The transaction object `tx`, given the fetched nonce. -/
def transaction (w : World) (nonce : Nat) : TransactionRequest :=
  { from_ := some w.walletAddress, to_ := none, data := some minimalBytecode,
    gasLimit := some 1000000, gasPrice := some 0, nonce := some nonce, type := none,
    chainId := none }

/-- The `try` block of `checkEVM`. -/
def body (w : World) : Script Unit := do
  consoleLog [.text "Testing minimal contract deployment..."]
  let nonce ← w.transactionCount w.walletAddress none
  let tx := transaction w nonce
  consoleLog [.text "Transaction:", .transaction tx]
  let signedTx ← w.walletSign tx
  consoleLog [.text "Signed transaction"]
  let txResponse ← w.broadcast signedTx
  consoleLog [.text "Transaction hash:", .str txResponse.hash]
  let receipt ← w.waitFor txResponse
  consoleLog [.text "Receipt status:", .num receipt.status]
  consoleLog [.text "Contract address:", .optStr receipt.contractAddress]
  consoleLog [.text "Gas used:", .str (decimal receipt.gasUsed)]
  match receipt.contractAddress with
  | some contractAddress =>
    if contractAddress ≠ [] then
      let code ← w.code contractAddress
      consoleLog [.text "Deployed code:", .str code]
  | none => pure ()

/-- The `catch` block of `checkEVM`. -/
def handler (error : JsError) : Script Unit := do
  consoleError [.text "Error:", .str error.message]
  match error.receipt with
  | some receipt => consoleLog [.text "Receipt:", .receipt receipt]
  | none => pure ()

/-- The lines the `catch` block of `checkEVM` prints. -/
def handlerLines (error : JsError) : Trace :=
  .log .err [.text "Error:", .str error.message] ::
    match error.receipt with
    | some receipt => [.log .out [.text "Receipt:", .receipt receipt]]
    | none => []

/-- The function `checkEVM()`. -/
def checkEVM (w : World) : Script Unit :=
  tryCatch (body w) handler

end TestEvmCheck

/-! ## Collaborator behaviours and observations on traces -/

/-- One step of following the `store` transactions on `c` along a trace: a
returned `store(n)` call is remembered with its handle, and a `wait` that
returns a receipt for a remembered handle confirms its argument. -/
def confirmStep (c : ContractRef) (s : List (TransactionResponse × Nat) × Option Nat)
    (e : Event) : List (TransactionResponse × Nat) × Option Nat :=
  match e with
  | .call (.send c1 method [.num n] _) (.returned (.response tx)) =>
    if c1 = c ∧ method = js "store" then ((tx, n) :: s.1, s.2) else s
  | .call (.wait tx) (.returned (.receipt _)) =>
    match s.1.lookup tx with
    | some n => (s.1, some n)
    | none => s
  | _ => s

/-- The argument of the last confirmed `store` on `c`: the last `store`
call of the trace whose transaction a later `wait` returned a receipt for. -/
def lastConfirmedStore (c : ContractRef) (tr : Trace) : Option Nat :=
  (tr.foldl (confirmStep c) ([], none)).2

/-- The outcome recorded for a read-only call. -/
def readOutcome (r : Except JsError Nat) : Outcome :=
  match r with
  | .ok v => .returned (.num v)
  | .error e => .threw e

/-- The collaborator's `retrieve()` returns the argument of the last
confirmed `store`. -/
def RetrievesLastStore (w : World) : Prop :=
  ∀ (tr : Trace) (c : ContractRef) (n : Nat),
    lastConfirmedStore c tr = some n → w.read tr c (js "retrieve") [] = .ok n

/-- The compiler output that holds one contract per source file of the
request, named as the file without its `.sol`, and no `errors` list. -/
def cleanOutput (request : CompileRequest) : CompilerOutput :=
  { errors := none,
    contracts := some (request.sources.map fun source =>
      (source.1, [(source.1.take (source.1.length - 4),
        { abi := [js "[]"], bytecodeObject := js "6080" })])) }

/-- A collaborator on which every call succeeds: a node that mines every
transaction and keeps the stored number. -/
def nominal : World :=
  { walletAddress := js "0xFE3B557E8Fb62b89F4916B721be55cEb828dBd73",
    readFileSync := fun _ _ _ => .ok (js "contract SimpleStorage \x7b\x7d"),
    compile := fun _ request => .ok (cleanOutput request),
    getNetwork := fun _ => .ok 1337,
    getBalance := fun _ _ => .ok (200 * 10 ^ 18),
    getBlockNumber := fun _ => .ok 7,
    getFeeData := fun _ => .ok (some 1000000000),
    getTransactionCount := fun _ _ _ => .ok 3,
    getCode := fun _ _ => .ok (js "0x602a"),
    deploy := fun tr _ _ _ _ => .ok { deploymentTransaction := { hash := js "0xd" ++ decimal tr.length } },
    getDeployTransaction := fun _ _ bytecode overrides =>
      .ok { from_ := none, to_ := none, data := some bytecode,
            gasLimit := overrides.bind (fun o => o.gasLimit),
            gasPrice := overrides.bind (fun o => o.gasPrice),
            nonce := none,
            type := overrides.bind (fun o => o.type),
            chainId := none },
    waitForDeployment := fun _ _ => .ok (),
    getAddress := fun _ _ => .ok (js "0x42699A7612A82f1d9C36148af9C77354759b210b"),
    sendTransaction := fun tr _ => .ok { hash := js "0xa" ++ decimal tr.length },
    signTransaction := fun _ _ => .ok (js "0xf86480"),
    broadcastTransaction := fun tr _ => .ok { hash := js "0xb" ++ decimal tr.length },
    wait := fun tr _ => .ok { status := 1, gasUsed := 21000, blockNumber := tr.length,
                              contractAddress := some (js "0x42699A7612A82f1d9C36148af9C77354759b210b") },
    send := fun tr _ _ _ _ => .ok { hash := js "0xc" ++ decimal tr.length },
    read := fun tr c _ _ => .ok ((lastConfirmedStore c tr).getD 0),
    invalidBytes := fun _ =>
      { name := .TypeError, message := js "invalid BytesLike value", receipt := none,
        transaction := none, data := none, reason := none, info := none } }

/-- The event is a console line. -/
def Event.IsLog (e : Event) : Prop := ∃ s args, e = Event.log s args

/-- The collaborator calls of a trace, in order, console lines dropped. -/
def callsOf (tr : Trace) : List Call :=
  tr.filterMap fun e =>
    match e with
    | .call c _ => some c
    | .log _ _ => none

/-- The gas price a transaction-building call carries: `none` for a call
that builds no transaction, `some none` for a transaction whose gas price is
left out. -/
def Call.gasPrice : Call → Option (Option Nat)
  | .deploy _ _ _ overrides => some (overrides.bind fun o => o.gasPrice)
  | .getDeployTransaction _ _ overrides => some (overrides.bind fun o => o.gasPrice)
  | .send _ _ _ overrides => some (overrides.bind fun o => o.gasPrice)
  | .sendTransaction tx => some tx.gasPrice
  | .signTransaction tx => some tx.gasPrice
  | _ => none

/-- The `chainId` field of a transaction handed to the signer: `none` for a
call that hands none over, `some none` for a transaction without the field.
The options object of `deploy` and of a contract method has no `chainId` in
any script. -/
def Call.chainId : Call → Option (Option Nat)
  | .sendTransaction tx => some tx.chainId
  | .signTransaction tx => some tx.chainId
  | .deploy _ _ _ _ => some none
  | .send _ _ _ _ => some none
  | _ => none

/-- Every transaction the event builds carries the gas price `price`
(`none`: no gas price is set). -/
def FeeIs (price : Option Nat) (e : Event) : Prop :=
  ∀ (c : Call) (o : Outcome), e = .call c o → ∀ p, c.gasPrice = some p → p = price

/-- Every transaction the event hands to the signer has the `chainId` field
`id` (`none`: the field is absent). -/
def ChainIdIs (id : Option Nat) (e : Event) : Prop :=
  ∀ (c : Call) (o : Outcome), e = .call c o → ∀ p, c.chainId = some p → p = id

/-- Every transaction the event builds carries `gasPrice` 0. -/
def ZeroFee (e : Event) : Prop := FeeIs (some 0) e

/-- The event is a console line that reports a receipt: the lines labelled
`Receipt status:`, `Receipt:` and `Transaction mined, status:`. -/
def reportsReceipt : Event → Bool
  | .log _ (.text label :: _) =>
    label == "Receipt status:" || label == "Receipt:" || label == "Transaction mined, status:"
  | _ => false

/-- The event is a network operation: any collaborator call but reading
the source file and compiling. -/
def isNetworkCall : Call → Bool
  | .readFileSync _ _ => false
  | .compile _ => false
  | _ => true

/-- The exit code of a file whose top level leaves the promise unhandled
(Node 15 and later): 0 when it fulfils, 1 when it rejects. -/
def exitCode (r : Except JsError Unit) : Nat :=
  match r with
  | .ok _ => 0
  | .error _ => 1

/-- A compiler output with a warning, two errors and the contract entry. -/
def failingOutput : CompilerOutput :=
  { errors := some [{ severity := js "warning", formattedMessage := js "Warning: unused" },
                    { severity := js "error", formattedMessage := js "ParserError: first" },
                    { severity := js "error", formattedMessage := js "TypeError: second" }],
    contracts := some [(js "SimpleStorage.sol",
      [(js "SimpleStorage", { abi := [js "[]"], bytecodeObject := js "6080" })])] }

/-- A compiler output with only a warning and the contract entry. -/
def warningOutput : CompilerOutput :=
  { errors := some [{ severity := js "warning", formattedMessage := js "Warning: unused" }],
    contracts := some [(js "SimpleStorage.sol",
      [(js "SimpleStorage", { abi := [js "[]"], bytecodeObject := js "6080" })])] }

/-- A compiler output with an error and no contract, as the compiler gives
for a source that does not compile. -/
def failedOutput : CompilerOutput :=
  { errors := some [{ severity := js "error", formattedMessage := js "ParserError: first" }],
    contracts := none }

/-- The nominal collaborator with a compiler that always answers `output`. -/
def withOutput (output : CompilerOutput) : World :=
  { nominal with compile := fun _ _ => .ok output }

/-- The error of a node that refuses a transaction; it carries the
transaction, without a `data` field, and no receipt. -/
def rejection : JsError :=
  { name := .Error, message := js "insufficient funds", receipt := none,
    transaction := some { from_ := some (js "0xFE3B"), to_ := none, data := none },
    data := none, reason := none, info := none }

/-- The receipt of a transaction that was mined and reverted. -/
def revertedReceipt : Receipt :=
  { status := 0, gasUsed := 21000, blockNumber := 8, contractAddress := none }

/-- The error `wait` throws for a transaction that was mined and reverted. -/
def revert : JsError :=
  { name := .Error, message := js "transaction execution reverted",
    receipt := some revertedReceipt, transaction := none,
    data := none, reason := none, info := none }

/-- A node that refuses every deployment. -/
def refusingDeploy : World :=
  { nominal with deploy := fun _ _ _ _ _ => .error rejection }

/-- A node that refuses every broadcast and every method transaction. -/
def refusing : World :=
  { nominal with
    broadcastTransaction := fun _ _ => .error rejection,
    send := fun _ _ _ _ _ => .error rejection }

/-- A node on which every transaction is mined and reverted, `wait`
throwing as `ethers` does. -/
def reverting : World :=
  { nominal with wait := fun _ _ => .error revert }

/-- A node on which every transaction is mined and reverted, `wait`
returning the receipt. -/
def revertingQuietly : World :=
  { nominal with wait := fun _ _ => .ok revertedReceipt }

/-- A node that reports empty code at every address. -/
def codeless : World :=
  { nominal with getCode := fun _ _ => .ok (js "0x") }

/-- The error of a node that refuses a transaction whose `data` is 202
characters long. -/
def rejectionWithData : JsError :=
  { name := .Error, message := js "insufficient funds", receipt := none,
    transaction := some { from_ := some (js "0xFE3B"), to_ := none,
                          data := some (js "0x" ++ List.replicate 200 97) },
    data := none, reason := none, info := none }

/-- A node that refuses every deployment, the error carrying the data. -/
def refusingData : World :=
  { nominal with deploy := fun _ _ _ _ _ => .error rejectionWithData }

/-- The block tag a transaction-count request carries: `none` for any other
call, `some none` for a request without a block tag. -/
def Call.blockTag : Call → Option (Option JsString)
  | .getTransactionCount _ blockTag => some blockTag
  | _ => none

/-- A node with one transaction of the wallet waiting in its pool: the
count at the latest block is 3 and the pending count is 4.  A request
without a block tag is answered for the latest block, the default of
`ethers`. -/
def pooled : World :=
  { nominal with
    getTransactionCount := fun _ _ blockTag =>
      if blockTag = some (js "pending") then .ok 4 else .ok 3 }

/-- The event is a line of the error loop of `compileAndDeploy`: a
`console.error` call whose first argument is `Compilation error:`. -/
def isErrorLine : Event → Bool
  | .log .err (.text label :: _) => label == "Compilation error:"
  | _ => false

/-- The call follows the store scenario: a deployment carries gas limit
3000000 and gas price 0, a method transaction is `store(42)`, and any other
call is free. -/
def Call.followsScenario : Call → Prop
  | .deploy _ _ _ overrides => overrides = some (gasOptions 3000000 0)
  | .send _ method args _ => method = js "store" ∧ args = [.num 42]
  | _ => True


/-! ## Running a script step by step -/

namespace Script

theorem bind_run {α β : Type} (m : Script α) (f : α → Script β) (tr : Trace) :
    (m >>= f) tr = andThen m f tr := rfl

theorem pure_run {α : Type} (a : α) (tr : Trace) :
    (pure a : Script α) tr = (.ok a, tr) := rfl

theorem throw_run {α : Type} (e : JsError) (tr : Trace) :
    (throw e : Script α) tr = (.error e, tr) := rfl

theorem tryCatch_run {α : Type} (m : Script α) (h : JsError → Script α) (tr : Trace) :
    (tryCatch m h) tr = attempt m h tr := rfl

/-- Sequencing is associative. -/
theorem bind_bind {α β γ : Type} (m : Script α) (f : α → Script β) (g : β → Script γ) :
    (m >>= f) >>= g = m >>= fun a => f a >>= g := by
  funext tr
  simp only [bind_run, andThen]
  rcases m tr with ⟨r, tr1⟩
  cases r <;> rfl

/-- A returned value is passed on. -/
theorem pure_bind {α β : Type} (a : α) (f : α → Script β) :
    (pure a : Script α) >>= f = f a := rfl

/-- A thrown error skips the rest. -/
theorem throw_bind {α β : Type} (e : JsError) (f : α → Script β) :
    (throw e : Script α) >>= f = throw e := rfl

/-- A conditional followed by the rest of the script. -/
theorem ite_bind {α β : Type} (c : Prop) [Decidable c] (a b : Script α) (f : α → Script β) :
    (if c then a else b) >>= f = if c then a >>= f else b >>= f := by
  split <;> rfl

/-- A `try` whose handler never throws never throws. -/
theorem attempt_ok (m : Script Unit) (h : JsError → Script Unit)
    (hh : ∀ e tr, (h e tr).1 = .ok ()) (tr : Trace) : (attempt m h tr).1 = .ok () := by
  unfold attempt
  rcases m tr with ⟨r, tr1⟩
  cases r with
  | ok a => rfl
  | error e => exact hh e tr1

end Script

/-- A collaborator call followed by the rest of the script. -/
theorem perform_bind_run {α β : Type} (c : Call) (answer : Trace → Except JsError α)
    (inj : α → Value) (f : α → Script β) (tr : Trace) :
    (perform c answer inj >>= f) tr =
      match answer tr with
      | .ok a => f a (tr ++ [Event.call c (.returned (inj a))])
      | .error e => (.error e, tr ++ [Event.call c (.threw e)]) := by
  simp only [Script.bind_run, Script.andThen, perform]
  cases answer tr <;> rfl

/-- A console line followed by the rest of the script. -/
theorem consoleLog_bind_run {β : Type} (args : List LogArg) (f : Unit → Script β)
    (tr : Trace) : (consoleLog args >>= f) tr = f () (tr ++ [Event.log .out args]) := rfl

/-- An error line followed by the rest of the script. -/
theorem consoleError_bind_run {β : Type} (args : List LogArg) (f : Unit → Script β)
    (tr : Trace) : (consoleError args >>= f) tr = f () (tr ++ [Event.log .err args]) := rfl

/-- A returned or thrown value followed by the rest of the script. -/
theorem fromExcept_bind_run {α β : Type} (r : Except JsError α) (f : α → Script β)
    (tr : Trace) :
    (fromExcept r >>= f) tr =
      match r with
      | .ok a => f a tr
      | .error e => (.error e, tr) := by
  cases r <;> rfl

/-- A collaborator call under a `try`. -/
theorem attempt_perform_bind {α β : Type} (c : Call) (answer : Trace → Except JsError α)
    (inj : α → Value) (f : α → Script β) (h : JsError → Script β) (tr : Trace) :
    Script.attempt (perform c answer inj >>= f) h tr =
      match answer tr with
      | .ok a => Script.attempt (f a) h (tr ++ [Event.call c (.returned (inj a))])
      | .error e => h e (tr ++ [Event.call c (.threw e)]) := by
  simp only [Script.attempt, perform_bind_run]
  cases answer tr <;> rfl

/-- A last collaborator call under a `try`. -/
theorem attempt_perform {α : Type} (c : Call) (answer : Trace → Except JsError α)
    (inj : α → Value) (h : JsError → Script α) (tr : Trace) :
    Script.attempt (perform c answer inj) h tr =
      match answer tr with
      | .ok a => (.ok a, tr ++ [Event.call c (.returned (inj a))])
      | .error e => h e (tr ++ [Event.call c (.threw e)]) := by
  simp only [Script.attempt, perform]
  cases answer tr <;> rfl

/-- A console line under a `try`. -/
theorem attempt_consoleLog_bind {β : Type} (args : List LogArg) (f : Unit → Script β)
    (h : JsError → Script β) (tr : Trace) :
    Script.attempt (consoleLog args >>= f) h tr =
      Script.attempt (f ()) h (tr ++ [Event.log .out args]) := rfl

/-- A last console line under a `try`. -/
theorem attempt_consoleLog (args : List LogArg) (h : JsError → Script Unit) (tr : Trace) :
    Script.attempt (consoleLog args) h tr = (.ok (), tr ++ [Event.log .out args]) := rfl

/-- A returned or thrown value under a `try`. -/
theorem attempt_fromExcept_bind {α β : Type} (r : Except JsError α) (f : α → Script β)
    (h : JsError → Script β) (tr : Trace) :
    Script.attempt (fromExcept r >>= f) h tr =
      match r with
      | .ok a => Script.attempt (f a) h tr
      | .error e => h e tr := by
  cases r <;> rfl

/-- A returned value under a `try`. -/
theorem attempt_pure {α : Type} (a : α) (h : JsError → Script α) (tr : Trace) :
    Script.attempt (pure a) h tr = (.ok a, tr) := rfl

/-- A thrown error under a `try`. -/
theorem attempt_throw {α : Type} (e : JsError) (h : JsError → Script α) (tr : Trace) :
    Script.attempt (throw e) h tr = h e tr := rfl

/-- A conditional under a `try`. -/
theorem attempt_ite {α : Type} (c : Prop) [Decidable c] (a b : Script α)
    (h : JsError → Script α) (tr : Trace) :
    Script.attempt (if c then a else b) h tr =
      if c then Script.attempt a h tr else Script.attempt b h tr := by
  split <;> rfl

namespace CompileAndDeploy

/-- The error loop prints one line per entry of severity `error`, in order,
and never throws. -/
theorem reportErrors_run (errs : List CompilerError) (tr : Trace) :
    reportErrors errs tr =
      (.ok (), tr ++ (errs.filter (fun err => err.severity = js "error")).map
        (fun err => Event.log .err [.text "Compilation error:", .str err.formattedMessage])) := by
  induction errs generalizing tr with
  | nil => simp [reportErrors, Script.pure_run]
  | cons err rest ih =>
    by_cases h : err.severity = js "error"
    · simp [reportErrors, Script.bind_run, Script.andThen, h, consoleError, ih]
    · simp [reportErrors, Script.bind_run, Script.andThen, h, Script.pure_run, ih]

theorem reportCompilation_run (output : CompilerOutput) (tr : Trace) :
    reportCompilation output tr = (.ok (), tr ++ errorLines output) := by
  simp only [reportCompilation, errorLines]
  cases output.errors with
  | none => simp [Script.pure_run]
  | some errs => simp [reportErrors_run]

theorem reportCompilation_bind_run {β : Type} (output : CompilerOutput)
    (f : Unit → Script β) (tr : Trace) :
    (reportCompilation output >>= f) tr = f () (tr ++ errorLines output) := by
  simp only [Script.bind_run, Script.andThen, reportCompilation_run]

theorem attempt_reportCompilation_bind {β : Type} (output : CompilerOutput)
    (f : Unit → Script β) (h : JsError → Script β) (tr : Trace) :
    Script.attempt (reportCompilation output >>= f) h tr =
      Script.attempt (f ()) h (tr ++ errorLines output) := by
  simp only [Script.attempt, reportCompilation_bind_run]

/-- The error lines are console lines. -/
theorem mem_errorLines (output : CompilerOutput) (e : Event) (h : e ∈ errorLines output) :
    ∃ message, e = Event.log .err [.text "Compilation error:", .str message] := by
  simp only [errorLines, List.mem_map] at h
  obtain ⟨err, _, rfl⟩ := h
  exact ⟨_, rfl⟩

theorem callsOf_errorLines (output : CompilerOutput) : callsOf (errorLines output) = [] := by
  simp only [callsOf, List.filterMap_eq_nil_iff]
  intro e he
  obtain ⟨message, rfl⟩ := mem_errorLines output e he
  rfl

end CompileAndDeploy

namespace CompileAndDeploy

/-- The `catch` block prints its lines and returns. -/
theorem compileAndDeploy_handler_run (error : JsError) (tr : Trace) :
    handler error tr = (.ok (), tr ++ handlerLines error) := by
  rcases error with ⟨name, message, receipt, transaction, data, reason, info⟩
  cases receipt <;> cases transaction <;>
    simp [handler, handlerLines, reportReceipt, reportTransaction, receiptLines,
      transactionLines, Script.bind_run, Script.andThen, consoleError, Script.pure_run]

end CompileAndDeploy

namespace DeploySolution

/-- The `catch` block prints its lines and returns. -/
theorem main_handler_run (error : JsError) (tr : Trace) :
    handler error tr = (.ok (), tr ++ handlerLines error) := by
  rcases error with ⟨name, message, receipt, transaction, data, reason, info⟩
  cases receipt <;>
    simp [handler, handlerLines, Script.bind_run, Script.andThen, consoleError, Script.pure_run]

end DeploySolution

namespace TestDeploy

/-- The `catch` block prints its lines and returns. -/
theorem testDeploy_handler_run (error : JsError) (tr : Trace) :
    handler error tr = (.ok (), tr ++ handlerLines error) := by
  cases hd : truthyString error.data <;> cases hr : truthyString error.reason <;>
    simp [handler, handlerLines, Script.bind_run, Script.andThen, consoleError,
      Script.pure_run, hd, hr]

end TestDeploy

namespace TestWithChainId

/-- The `catch` block prints its lines and returns. -/
theorem testWithChainId_handler_run (error : JsError) (tr : Trace) :
    handler error tr = (.ok (), tr ++ handlerLines error) := by
  rcases error with ⟨name, message, receipt, transaction, data, reason, info⟩
  cases receipt <;> cases h : truthyString reason <;>
    simp [handler, handlerLines, reportReceipt, Script.bind_run, Script.andThen, consoleError,
      consoleLog, Script.pure_run, h]

end TestWithChainId

namespace TestSimpleContract

/-- The inner `catch` block prints its lines and returns. -/
theorem setHandler_run (e : JsError) (tr : Trace) :
    setHandler e tr = (.ok (), tr ++ setHandlerLines e) := by
  rcases e with ⟨name, message, receipt, transaction, data, reason, info⟩
  cases receipt <;>
    simp [setHandler, setHandlerLines, Script.bind_run, Script.andThen, consoleLog,
      Script.pure_run]

/-- The outer `catch` block prints its lines and returns. -/
theorem testSimpleContract_handler_run (error : JsError) (tr : Trace) :
    handler error tr = (.ok (), tr ++ handlerLines error) := by
  rcases error with ⟨name, message, receipt, transaction, data, reason, info⟩
  cases info <;>
    simp [handler, handlerLines, Script.bind_run, Script.andThen, consoleError, Script.pure_run]

end TestSimpleContract

namespace TestEvmCheck

/-- The `catch` block prints its lines and returns. -/
theorem checkEVM_handler_run (error : JsError) (tr : Trace) :
    handler error tr = (.ok (), tr ++ handlerLines error) := by
  rcases error with ⟨name, message, receipt, transaction, data, reason, info⟩
  cases receipt <;>
    simp [handler, handlerLines, Script.bind_run, Script.andThen, consoleError, consoleLog,
      Script.pure_run]

end TestEvmCheck

namespace Script

/-- A `try` around a script that does not throw changes nothing. -/
theorem attempt_of_ok {α : Type} (m : Script α) (h : JsError → Script α) (tr : Trace) (a : α)
    (hm : (m tr).1 = .ok a) : attempt m h tr = m tr := by
  unfold attempt
  rcases hmt : m tr with ⟨r, tr1⟩
  rw [hmt] at hm
  cases hm
  rfl

/-- The laws by which a script is run step by step, gathered for rewriting. -/
theorem steps :
    (∀ {α β γ : Type} (m : Script α) (f : α → Script β) (g : β → Script γ),
      (m >>= f) >>= g = m >>= fun a => f a >>= g) ∧
    (∀ {α β : Type} (a : α) (f : α → Script β), (pure a : Script α) >>= f = f a) ∧
    (∀ {α β : Type} (e : JsError) (f : α → Script β), (throw e : Script α) >>= f = throw e) ∧
    (∀ {α β : Type} (c : Prop) [Decidable c] (a b : Script α) (f : α → Script β),
      (if c then a else b) >>= f = if c then a >>= f else b >>= f) ∧
    (∀ {α : Type} (m : Script α) (h : JsError → Script α) (tr : Trace),
      (tryCatch m h) tr = attempt m h tr) ∧
    (∀ {α β : Type} (c : Call) (answer : Trace → Except JsError α) (inj : α → Value)
      (f : α → Script β) (tr : Trace),
      (perform c answer inj >>= f) tr =
        match answer tr with
        | .ok a => f a (tr ++ [Event.call c (.returned (inj a))])
        | .error e => (.error e, tr ++ [Event.call c (.threw e)])) ∧
    (∀ {β : Type} (args : List LogArg) (f : Unit → Script β) (tr : Trace),
      (consoleLog args >>= f) tr = f () (tr ++ [Event.log .out args])) ∧
    (∀ {β : Type} (args : List LogArg) (f : Unit → Script β) (tr : Trace),
      (consoleError args >>= f) tr = f () (tr ++ [Event.log .err args])) ∧
    (∀ {α β : Type} (r : Except JsError α) (f : α → Script β) (tr : Trace),
      (fromExcept r >>= f) tr =
        match r with
        | .ok a => f a tr
        | .error e => (.error e, tr)) ∧
    (∀ {α β : Type} (c : Call) (answer : Trace → Except JsError α) (inj : α → Value)
      (f : α → Script β) (h : JsError → Script β) (tr : Trace),
      attempt (perform c answer inj >>= f) h tr =
        match answer tr with
        | .ok a => attempt (f a) h (tr ++ [Event.call c (.returned (inj a))])
        | .error e => h e (tr ++ [Event.call c (.threw e)])) ∧
    (∀ {α : Type} (c : Call) (answer : Trace → Except JsError α) (inj : α → Value)
      (h : JsError → Script α) (tr : Trace),
      attempt (perform c answer inj) h tr =
        match answer tr with
        | .ok a => (.ok a, tr ++ [Event.call c (.returned (inj a))])
        | .error e => h e (tr ++ [Event.call c (.threw e)])) ∧
    (∀ {β : Type} (args : List LogArg) (f : Unit → Script β) (h : JsError → Script β)
      (tr : Trace),
      attempt (consoleLog args >>= f) h tr = attempt (f ()) h (tr ++ [Event.log .out args])) ∧
    (∀ (args : List LogArg) (h : JsError → Script Unit) (tr : Trace),
      attempt (consoleLog args) h tr = (.ok (), tr ++ [Event.log .out args])) ∧
    (∀ {α β : Type} (r : Except JsError α) (f : α → Script β) (h : JsError → Script β)
      (tr : Trace),
      attempt (fromExcept r >>= f) h tr =
        match r with
        | .ok a => attempt (f a) h tr
        | .error e => h e tr) ∧
    (∀ {α : Type} (a : α) (h : JsError → Script α) (tr : Trace),
      attempt (pure a) h tr = (.ok a, tr)) ∧
    (∀ {α : Type} (e : JsError) (h : JsError → Script α) (tr : Trace),
      attempt (throw e) h tr = h e tr) ∧
    (∀ {α : Type} (c : Prop) [Decidable c] (a b : Script α) (h : JsError → Script α)
      (tr : Trace),
      attempt (if c then a else b) h tr = if c then attempt a h tr else attempt b h tr) ∧
    (∀ {α : Type} (a : α) (tr : Trace), (pure a : Script α) tr = (.ok a, tr)) ∧
    (∀ {α : Type} (e : JsError) (tr : Trace), (throw e : Script α) tr = (.error e, tr)) ∧
    (∀ (args : List LogArg) (tr : Trace),
      consoleLog args tr = (.ok (), tr ++ [Event.log .out args])) ∧
    (∀ (args : List LogArg) (tr : Trace),
      consoleError args tr = (.ok (), tr ++ [Event.log .err args])) ∧
    (∀ (tr : Trace), [] ++ tr = tr) ∧
    (∀ (a : Event) (tr1 tr2 : Trace), (a :: tr1) ++ tr2 = a :: (tr1 ++ tr2)) ∧
    (∀ (tr1 tr2 tr3 : Trace), (tr1 ++ tr2) ++ tr3 = tr1 ++ (tr2 ++ tr3)) :=
  ⟨bind_bind, pure_bind, throw_bind, ite_bind, tryCatch_run, perform_bind_run,
    consoleLog_bind_run, consoleError_bind_run, fromExcept_bind_run, attempt_perform_bind,
    attempt_perform, attempt_consoleLog_bind, attempt_consoleLog, attempt_fromExcept_bind,
    attempt_pure, attempt_throw, attempt_ite, pure_run, throw_run, fun _ _ => rfl,
    fun _ _ => rfl, List.nil_append, List.cons_append, List.append_assoc⟩

end Script

namespace World

/-- The collaborator calls of the scripts, as `perform` steps. -/
theorem calls (w : World) :
    (∀ path encoding, w.readFile path encoding =
      perform (.readFileSync path encoding) (fun tr => w.readFileSync tr path encoding) .str) ∧
    (∀ input, w.solc input = perform (.compile input) (fun tr => w.compile tr input) .compiled) ∧
    (w.network = perform .getNetwork (fun tr => w.getNetwork tr) .num) ∧
    (∀ address, w.balance address =
      perform (.getBalance address) (fun tr => w.getBalance tr address) .num) ∧
    (w.blockNumber = perform .getBlockNumber (fun tr => w.getBlockNumber tr) .num) ∧
    (w.feeData = perform .getFeeData (fun tr => w.getFeeData tr) .feeData) ∧
    (∀ address blockTag, w.transactionCount address blockTag =
      perform (.getTransactionCount address blockTag)
        (fun tr => w.getTransactionCount tr address blockTag) .num) ∧
    (∀ address, w.code address =
      perform (.getCode address) (fun tr => w.getCode tr address) .str) ∧
    (∀ abi bytecode args overrides, w.factoryDeploy abi bytecode args overrides =
      perform (.deploy abi bytecode args overrides)
        (fun tr => w.deploy tr abi bytecode args overrides) .contract) ∧
    (∀ abi bytecode overrides, w.deployTransaction abi bytecode overrides =
      perform (.getDeployTransaction abi bytecode overrides)
        (fun tr => w.getDeployTransaction tr abi bytecode overrides) .request) ∧
    (∀ c, w.deployed c =
      perform (.waitForDeployment c) (fun tr => w.waitForDeployment tr c) (fun _ => .unit)) ∧
    (∀ c, w.address c = perform (.getAddress c) (fun tr => w.getAddress tr c) .str) ∧
    (∀ tx, w.walletSend tx =
      perform (.sendTransaction tx) (fun tr => w.sendTransaction tr tx) .response) ∧
    (∀ tx, w.walletSign tx =
      perform (.signTransaction tx) (fun tr => w.signTransaction tr tx) .str) ∧
    (∀ signedTx, w.broadcast signedTx =
      perform (.broadcastTransaction signedTx) (fun tr => w.broadcastTransaction tr signedTx)
        .response) ∧
    (∀ tx, w.waitFor tx = perform (.wait tx) (fun tr => w.wait tr tx) .receipt) ∧
    (∀ c method args overrides, w.invoke c method args overrides =
      perform (.send c method args overrides)
        (fun tr => w.send tr c method args overrides) .response) ∧
    (∀ c method args, w.view c method args =
      perform (.read c method args) (fun tr => w.read tr c method args) .num) :=
  ⟨fun _ _ => rfl, fun _ => rfl, rfl, fun _ => rfl, rfl, rfl, fun _ _ => rfl, fun _ => rfl,
    fun _ _ _ _ => rfl, fun _ _ _ => rfl, fun _ => rfl, fun _ => rfl, fun _ => rfl,
    fun _ => rfl, fun _ => rfl, fun _ => rfl, fun _ _ _ _ => rfl, fun _ _ _ => rfl⟩

end World

namespace TestSimpleContract

/-- The first inner `try` followed by the rest of the script: a failed
read is printed and the script goes on. -/
theorem readGet_bind_run {β : Type} (w : World) (contract : Contract) (f : Unit → Script β)
    (tr : Trace) :
    (readGet w contract >>= f) tr =
      match w.read tr (.deployed contract) (js "get") [] with
      | .ok v => f () (tr ++ [Event.call (.read (.deployed contract) (js "get") [])
          (.returned (.num v)),
          Event.log .out [.text "Initial value from get():", .str (decimal v)]])
      | .error e => f () (tr ++ [Event.call (.read (.deployed contract) (js "get") [])
          (.threw e),
          Event.log .out [.text "Error reading with get():", .str e.message]]) := by
  simp only [readGet, Script.bind_run, Script.andThen, Script.tryCatch_run, Script.attempt,
    World.view, perform, consoleLog]
  cases w.read tr (.deployed contract) (js "get") [] <;> simp

/-- The second inner `try` followed by the rest of the script. -/
theorem readStoredData_bind_run {β : Type} (w : World) (contract : Contract)
    (f : Unit → Script β) (tr : Trace) :
    (readStoredData w contract >>= f) tr =
      match w.read tr (.deployed contract) (js "storedData") [] with
      | .ok v => f () (tr ++ [Event.call (.read (.deployed contract) (js "storedData") [])
          (.returned (.num v)),
          Event.log .out [.text "Initial value from storedData():", .str (decimal v)]])
      | .error e => f () (tr ++ [Event.call (.read (.deployed contract) (js "storedData") [])
          (.threw e),
          Event.log .out [.text "Error reading storedData:", .str e.message]]) := by
  simp only [readStoredData, Script.bind_run, Script.andThen, Script.tryCatch_run,
    Script.attempt, World.view, perform, consoleLog]
  cases w.read tr (.deployed contract) (js "storedData") [] <;> simp

/-- The first inner `try` under the outer `try`. -/
theorem attempt_readGet_bind {β : Type} (w : World) (contract : Contract)
    (f : Unit → Script β) (h : JsError → Script β) (tr : Trace) :
    Script.attempt (readGet w contract >>= f) h tr =
      match w.read tr (.deployed contract) (js "get") [] with
      | .ok v => Script.attempt (f ()) h (tr ++
          [Event.call (.read (.deployed contract) (js "get") []) (.returned (.num v)),
           Event.log .out [.text "Initial value from get():", .str (decimal v)]])
      | .error e => Script.attempt (f ()) h (tr ++
          [Event.call (.read (.deployed contract) (js "get") []) (.threw e),
           Event.log .out [.text "Error reading with get():", .str e.message]]) := by
  simp only [Script.attempt, readGet_bind_run]
  cases w.read tr (.deployed contract) (js "get") [] <;> rfl

/-- The second inner `try` under the outer `try`. -/
theorem attempt_readStoredData_bind {β : Type} (w : World) (contract : Contract)
    (f : Unit → Script β) (h : JsError → Script β) (tr : Trace) :
    Script.attempt (readStoredData w contract >>= f) h tr =
      match w.read tr (.deployed contract) (js "storedData") [] with
      | .ok v => Script.attempt (f ()) h (tr ++
          [Event.call (.read (.deployed contract) (js "storedData") []) (.returned (.num v)),
           Event.log .out [.text "Initial value from storedData():", .str (decimal v)]])
      | .error e => Script.attempt (f ()) h (tr ++
          [Event.call (.read (.deployed contract) (js "storedData") []) (.threw e),
           Event.log .out [.text "Error reading storedData:", .str e.message]]) := by
  simp only [Script.attempt, readStoredData_bind_run]
  cases w.read tr (.deployed contract) (js "storedData") [] <;> rfl

/-- The `set(42)` step never throws: the outer `try` leaves it as it is. -/
theorem attempt_setStep (w : World) (contract : Contract) (h : JsError → Script Unit)
    (tr : Trace) :
    Script.attempt (setStep w contract) h tr =
      Script.attempt (setBody w contract) setHandler tr := by
  refine Script.attempt_of_ok _ h tr () ?_
  exact Script.attempt_ok _ _ (fun e t => by rw [setHandler_run]) tr

end TestSimpleContract

/-! ## The lines of the `catch` blocks are console lines -/

theorem Event.isLog_log (s : Stream) (args : List LogArg) : (Event.log s args).IsLog :=
  ⟨s, args, rfl⟩

theorem Event.not_isLog_call (c : Call) (o : Outcome) : ¬ (Event.call c o).IsLog := by
  rintro ⟨s, args, h⟩
  cases h

theorem CompileAndDeploy.isLog_errorLines (output : CompilerOutput) :
    ∀ e ∈ errorLines output, e.IsLog := by
  intro e he
  obtain ⟨message, rfl⟩ := mem_errorLines output e he
  exact Event.isLog_log _ _

theorem CompileAndDeploy.compileAndDeploy_isLog_handlerLines (error : JsError) :
    ∀ e ∈ handlerLines error, e.IsLog := by
  rcases error with ⟨name, message, receipt, transaction, data, reason, info⟩
  cases receipt <;> cases transaction <;>
    simp [handlerLines, receiptLines, transactionLines, Event.isLog_log]

theorem DeploySolution.main_isLog_handlerLines (error : JsError) :
    ∀ e ∈ handlerLines error, e.IsLog := by
  rcases error with ⟨name, message, receipt, transaction, data, reason, info⟩
  cases receipt <;> simp [handlerLines, Event.isLog_log]

theorem TestDeploy.testDeploy_isLog_handlerLines (error : JsError) :
    ∀ e ∈ handlerLines error, e.IsLog := by
  cases hd : truthyString error.data <;> cases hr : truthyString error.reason <;>
    simp [handlerLines, Event.isLog_log, hd, hr]

theorem TestWithChainId.testWithChainId_isLog_handlerLines (error : JsError) :
    ∀ e ∈ handlerLines error, e.IsLog := by
  rcases error with ⟨name, message, receipt, transaction, data, reason, info⟩
  cases receipt <;> cases hr : truthyString reason <;>
    simp [handlerLines, Event.isLog_log, hr]

theorem TestSimpleContract.isLog_setHandlerLines (error : JsError) :
    ∀ e ∈ setHandlerLines error, e.IsLog := by
  rcases error with ⟨name, message, receipt, transaction, data, reason, info⟩
  cases receipt <;> simp [setHandlerLines, Event.isLog_log]

theorem TestSimpleContract.testSimpleContract_isLog_handlerLines (error : JsError) :
    ∀ e ∈ handlerLines error, e.IsLog := by
  rcases error with ⟨name, message, receipt, transaction, data, reason, info⟩
  cases info <;> simp [handlerLines, Event.isLog_log]

theorem TestEvmCheck.checkEVM_isLog_handlerLines (error : JsError) :
    ∀ e ∈ handlerLines error, e.IsLog := by
  rcases error with ⟨name, message, receipt, transaction, data, reason, info⟩
  cases receipt <;> simp [handlerLines, Event.isLog_log]

/-- A property of every console line holds on a list of console lines. -/
theorem forall_of_isLog {P : Event → Prop} (hP : ∀ s args, P (.log s args)) {lines : Trace}
    (h : ∀ e ∈ lines, e.IsLog) : (∀ e ∈ lines, P e) ↔ True := by
  refine iff_true_intro fun e he => ?_
  obtain ⟨s, args, rfl⟩ := h e he
  exact hP s args

/-- A list of console lines holds no collaborator call. -/
theorem call_mem_of_isLog {lines : Trace} (h : ∀ e ∈ lines, e.IsLog) (c : Call) (o : Outcome) :
    Event.call c o ∈ lines ↔ False :=
  iff_false_intro fun hmem => Event.not_isLog_call c o (h _ hmem)

/-- A list of console lines has no collaborator call. -/
theorem callsOf_of_isLog {lines : Trace} (h : ∀ e ∈ lines, e.IsLog) : callsOf lines = [] := by
  simp only [callsOf, List.filterMap_eq_nil_iff]
  intro e he
  obtain ⟨s, args, rfl⟩ := h e he
  rfl

/-! ## Gas prices -/

theorem feeIs_log (price : Option Nat) (s : Stream) (args : List LogArg) :
    FeeIs price (.log s args) := by
  intro c o h
  cases h

theorem feeIs_call (price : Option Nat) (c : Call) (o : Outcome) :
    FeeIs price (.call c o) ↔ ∀ p, c.gasPrice = some p → p = price := by
  constructor
  · intro h p hp
    exact h c o rfl p hp
  · intro h c1 o1 heq p hp
    cases heq
    exact h p hp

/-! ## Chain identifiers -/

theorem chainIdIs_log (id : Option Nat) (s : Stream) (args : List LogArg) :
    ChainIdIs id (.log s args) := by
  intro c o h
  cases h

theorem chainIdIs_call (id : Option Nat) (c : Call) (o : Outcome) :
    ChainIdIs id (.call c o) ↔ ∀ p, c.chainId = some p → p = id := by
  constructor
  · intro h p hp
    exact h c o rfl p hp
  · intro h c1 o1 heq p hp
    cases heq
    exact h p hp

/-! ## The calls of a trace -/

theorem callsOf_nil : callsOf [] = [] := rfl

theorem callsOf_cons_call (c : Call) (o : Outcome) (tr : Trace) :
    callsOf (Event.call c o :: tr) = c :: callsOf tr := rfl

theorem callsOf_cons_log (s : Stream) (args : List LogArg) (tr : Trace) :
    callsOf (Event.log s args :: tr) = callsOf tr := rfl

theorem callsOf_append (tr1 tr2 : Trace) : callsOf (tr1 ++ tr2) = callsOf tr1 ++ callsOf tr2 := by
  simp [callsOf]


/-! ## The run of `testWithChainId` -/

namespace TestWithChainId

set_option maxRecDepth 100000 in
/-- The constant `bytecode` has the `0x` prefix and is not a byte string: it
has an odd number of digits. -/
theorem bytecode_not_hexBytes :
    bytecode.take 2 = js "0x" ∧ (bytecode.drop 2).length = 545 ∧ isHexBytes bytecode = false := by
  decide

/-- The factory constructor throws on the constant `bytecode`. -/
theorem contractFactory_bytecode (w : World) :
    w.contractFactory bytecode = throw (w.invalidBytes bytecode) := by
  simp [World.contractFactory, bytecode_not_hexBytes.1, bytecode_not_hexBytes.2.2]

/-- The run of `testWithChainId`: the chain id is read and printed, and the
run ends in the `catch` block with the error of the factory constructor. -/
theorem testWithChainId_trace (w : World) :
    (testWithChainId w).trace =
      match w.getNetwork [] with
      | .ok network =>
        [.call .getNetwork (.returned (.num network)),
         .log .out [.text "Network chainId:", .num network],
         .log .out [.text "Wallet address:", .str w.walletAddress],
         .log .out [.text "\nDeploying contract..."]] ++ handlerLines (w.invalidBytes bytecode)
      | .error e => [.call .getNetwork (.threw e)] ++ handlerLines e := by
  simp only [Script.trace, testWithChainId, body, contractFactory_bytecode,
    testWithChainId_handler_run, World.calls, Script.steps]
  cases w.getNetwork [] <;> simp only [testWithChainId_handler_run, Script.steps]

/-- The only collaborator call of `testWithChainId` is `getNetwork`. -/
theorem testWithChainId_calls (w : World) : callsOf (testWithChainId w).trace = [.getNetwork] := by
  rw [testWithChainId_trace]
  split <;>
    simp [callsOf_append, callsOf_cons_call, callsOf_cons_log, callsOf_nil,
      callsOf_of_isLog (testWithChainId_isLog_handlerLines _)]

end TestWithChainId

set_option maxRecDepth 100000 in
/-- The bytecode constants handed to `factory.deploy` are byte strings: the
factory constructor accepts them. -/
theorem deployed_constants_are_hexBytes :
    isHexBytes TestDeploy.bytecode = true ∧ isHexBytes TestSimpleContract.bytecode = true ∧
    isHexBytes Deploy.bytecode = true := by
  decide

/-- A list that starts with `a`, `b`, `c` and ends with another element `x`
has `x` after them. -/
theorem calls_before_last {α : Type} (a b c x : α) (l rest : List α)
    (h : l = a :: b :: c :: rest) (hlast : l.getLast? = some x) (hx : x ≠ c) :
    ∃ mid, l = a :: b :: c :: (mid ++ [x]) := by
  subst h
  rcases List.eq_nil_or_concat rest with rfl | ⟨mid, y, rfl⟩
  · simp at hlast
    exact absurd hlast.symm hx
  · refine ⟨mid, ?_⟩
    have hrw : a :: b :: c :: mid.concat y = (a :: b :: c :: mid) ++ [y] := by simp
    rw [hrw, List.getLast?_concat] at hlast
    cases hlast
    exact hrw

/-! ## The compiler adapter of `deploy-solution.js` -/

namespace DeploySolution

/-- The error check throws exactly on the first entry of severity `error`. -/
theorem checkErrors_eq (output : CompilerOutput) :
    checkErrors output =
      match (output.errors.getD []).find? (fun err => decide (err.severity = js "error")) with
      | some first => .error (newError (js "Compilation failed: " ++ first.formattedMessage))
      | none => .ok () := by
  unfold checkErrors
  cases output.errors with
  | none => rfl
  | some errs =>
    induction errs with
    | nil => rfl
    | cons err rest ih =>
      by_cases h : err.severity = js "error"
      · simp [List.filter, List.find?, h]
      · simpa [List.filter, List.find?, h] using ih

/-- The run of `deployContract` on a compiler output that holds the
contract entry. -/
theorem deployContract_run (w : World) (contractSource contractName : JsString) (tr : Trace)
    (output : CompilerOutput) (files : List (JsString × List (JsString × ContractOutput)))
    (contracts : List (JsString × ContractOutput)) (entry : ContractOutput)
    (hcompile : w.compile tr (compileInput contractSource contractName) = .ok output)
    (hfiles : output.contracts = some files)
    (hfile : files.lookup (contractName ++ js ".sol") = some contracts)
    (hentry : contracts.lookup contractName = some entry) :
    (deployContract w contractSource contractName tr).1 =
      match checkErrors output with
      | .error e => .error e
      | .ok () => .ok { bytecode := js "0x" ++ entry.bytecodeObject, abi := entry.abi } := by
  simp only [deployContract, throwOnErrors, World.solc, Script.bind_run, Script.andThen,
    perform, hcompile, contractEntry, hfiles, hfile, hentry, fromExcept]
  cases checkErrors output <;> rfl

/-- C1. Given a compiler output that holds the entry
`contracts[contractName + ".sol"][contractName]`, `deployContract` fails if
and only if the `errors` list has an entry of severity `error`; it then
throws `Compilation failed: ` followed by the `formattedMessage` of the first
such entry, and a list of warnings only does not make it fail. -/
theorem deployContract_fails_iff_error_severity (w : World)
    (contractSource contractName : JsString) (tr : Trace) (output : CompilerOutput)
    (files : List (JsString × List (JsString × ContractOutput)))
    (contracts : List (JsString × ContractOutput)) (entry : ContractOutput)
    (hcompile : w.compile tr (compileInput contractSource contractName) = .ok output)
    (hfiles : output.contracts = some files)
    (hfile : files.lookup (contractName ++ js ".sol") = some contracts)
    (hentry : contracts.lookup contractName = some entry) :
    ((∃ e, (deployContract w contractSource contractName tr).1 = .error e) ↔
        ∃ err ∈ output.errors.getD [], err.severity = js "error") ∧
    (∀ first, (output.errors.getD []).find? (fun err => decide (err.severity = js "error"))
          = some first →
        (deployContract w contractSource contractName tr).1 =
          .error (newError (js "Compilation failed: " ++ first.formattedMessage))) ∧
    ((∀ err ∈ output.errors.getD [], err.severity = js "warning") →
        ∃ artifact, (deployContract w contractSource contractName tr).1 = .ok artifact) := by
  rw [deployContract_run w contractSource contractName tr output files contracts entry
    hcompile hfiles hfile hentry, checkErrors_eq]
  cases hfind : (output.errors.getD []).find? (fun err => decide (err.severity = js "error")) with
  | none =>
    have hnone := List.find?_eq_none.mp hfind
    refine ⟨⟨fun h => ?_, fun h => ?_⟩, ?_, fun _ => ⟨_, rfl⟩⟩
    · obtain ⟨e, he⟩ := h
      cases he
    · obtain ⟨err, hmem, hsev⟩ := h
      exact absurd (by simpa using hsev) (hnone err hmem)
    · intro first h
      cases h
  | some first =>
    have hsev : first.severity = js "error" := by simpa using List.find?_some hfind
    have hmem : first ∈ output.errors.getD [] := List.mem_of_find?_eq_some hfind
    refine ⟨⟨fun _ => ⟨first, hmem, hsev⟩, fun _ => ⟨_, rfl⟩⟩, ?_, fun hall => ?_⟩
    · intro first1 h
      cases h
      rfl
    · have hwarn := hall first hmem
      rw [hsev] at hwarn
      exact absurd hwarn (by decide)

/-- C1 at a concrete input: a warning followed by two errors makes the call
fail with the message of the first error. -/
theorem deployContract_fails_iff_error_severity_witness :
    (∃ err ∈ failingOutput.errors.getD [], err.severity = js "error") ∧
    (deployContract (withOutput failingOutput) simpleStorageSource (js "SimpleStorage") []).1 =
      .error (newError (js "Compilation failed: ParserError: first")) :=
  ⟨⟨{ severity := js "error", formattedMessage := js "ParserError: first" }, by decide, rfl⟩,
    (deployContract_fails_iff_error_severity (withOutput failingOutput) simpleStorageSource
      (js "SimpleStorage") [] failingOutput
      [(js "SimpleStorage.sol",
        [(js "SimpleStorage", { abi := [js "[]"], bytecodeObject := js "6080" })])]
      [(js "SimpleStorage", { abi := [js "[]"], bytecodeObject := js "6080" })]
      { abi := [js "[]"], bytecodeObject := js "6080" } rfl rfl (by decide) (by decide)).2.1
      { severity := js "error", formattedMessage := js "ParserError: first" } (by decide)⟩

end DeploySolution


namespace DeploySolution

/-- The error check followed by the rest of `deployContract`. -/
theorem throwOnErrors_bind_run {β : Type} (output : CompilerOutput) (f : Unit → Script β)
    (tr : Trace) :
    (throwOnErrors output >>= f) tr =
      match (output.errors.getD []).find? (fun err => decide (err.severity = js "error")) with
      | some first =>
        (.error (newError (js "Compilation failed: " ++ first.formattedMessage)), tr)
      | none => f () tr := by
  simp only [throwOnErrors, fromExcept_bind_run, checkErrors_eq]
  cases (output.errors.getD []).find? (fun err => decide (err.severity = js "error")) <;> rfl

/-- The error check under a `try`. -/
theorem attempt_throwOnErrors_bind {β : Type} (output : CompilerOutput) (f : Unit → Script β)
    (h : JsError → Script β) (tr : Trace) :
    Script.attempt (throwOnErrors output >>= f) h tr =
      match (output.errors.getD []).find? (fun err => decide (err.severity = js "error")) with
      | some first => h (newError (js "Compilation failed: " ++ first.formattedMessage)) tr
      | none => Script.attempt (f ()) h tr := by
  simp only [Script.attempt, throwOnErrors_bind_run]
  cases (output.errors.getD []).find? (fun err => decide (err.severity = js "error")) <;> rfl

end DeploySolution

/-! ## Rejected and reverted transactions -/

namespace TestEvmCheck

/-- A broadcast that the node refuses: `wait` is never called and no receipt
line is printed. -/
theorem rejected_broadcast (w : World) (signedTx : JsString) (e : JsError)
    (hmem : Event.call (.broadcastTransaction signedTx) (.threw e) ∈ (checkEVM w).trace)
    (hre : e.receipt = none) :
    (∀ tx o, Event.call (.wait tx) o ∉ (checkEVM w).trace) ∧
    (∀ ev ∈ (checkEVM w).trace, reportsReceipt ev = false) := by
  revert signedTx e
  simp only [Script.trace, checkEVM, body, transaction, checkEVM_handler_run, World.calls, Script.steps]
  repeat' (split <;> try simp only [checkEVM_handler_run, Script.steps])
  all_goals
    intro signedTx e hmem hre
    simp [call_mem_of_isLog (checkEVM_isLog_handlerLines _)] at hmem <;>
      (obtain ⟨rfl, rfl⟩ := hmem
       simp [handlerLines, hre, reportsReceipt])

/-- A mined transaction: the receipt `wait` returns, or the receipt of the
error `wait` throws, is printed. -/
theorem mined_receipt (w : World) (tx : TransactionResponse) :
    (∀ r, Event.call (.wait tx) (.returned (.receipt r)) ∈ (checkEVM w).trace →
      Event.log .out [.text "Receipt status:", .num r.status] ∈ (checkEVM w).trace) ∧
    (∀ e r, Event.call (.wait tx) (.threw e) ∈ (checkEVM w).trace → e.receipt = some r →
      Event.log .out [.text "Receipt:", .receipt r] ∈ (checkEVM w).trace) := by
  revert tx
  simp only [Script.trace, checkEVM, body, transaction, checkEVM_handler_run, World.calls, Script.steps]
  repeat' (split <;> try simp only [checkEVM_handler_run, Script.steps])
  all_goals
    intro tx
    refine ⟨fun r hmem => ?_, fun e r hmem hre => ?_⟩
    · simp [call_mem_of_isLog (checkEVM_isLog_handlerLines _)] at hmem <;>
        (obtain ⟨rfl, rfl⟩ := hmem
         simp)
    · simp [call_mem_of_isLog (checkEVM_isLog_handlerLines _)] at hmem <;>
        (obtain ⟨rfl, rfl⟩ := hmem
         simp [handlerLines, hre])

end TestEvmCheck

namespace TestSimpleContract

/-- A `set(42)` that the node refuses: `wait` is never called and no receipt
line is printed. -/
theorem rejected_set (w : World) (c : ContractRef) (args : List Arg)
    (overrides : Option Overrides) (e : JsError)
    (hmem : Event.call (.send c (js "set") args overrides) (.threw e) ∈
      (testSimpleContract w).trace)
    (hre : e.receipt = none) :
    (∀ tx o, Event.call (.wait tx) o ∉ (testSimpleContract w).trace) ∧
    (∀ ev ∈ (testSimpleContract w).trace, reportsReceipt ev = false) := by
  revert c args overrides e
  simp only [Script.trace, testSimpleContract, body, setBody, testSimpleContract_handler_run, setHandler_run,
    readGet_bind_run, readStoredData_bind_run, attempt_readGet_bind,
    attempt_readStoredData_bind, attempt_setStep, World.calls, Script.steps]
  repeat' (split <;> try simp only [testSimpleContract_handler_run, setHandler_run,
    readGet_bind_run, readStoredData_bind_run, attempt_readGet_bind,
    attempt_readStoredData_bind, attempt_setStep, Script.steps])
  all_goals
    intro c args overrides e hmem hre
    simp [call_mem_of_isLog (testSimpleContract_isLog_handlerLines _),
      call_mem_of_isLog (isLog_setHandlerLines _)] at hmem <;>
      (obtain ⟨-, -, -, rfl⟩ := hmem
       simp [setHandlerLines, hre, reportsReceipt])

/-- A mined `set(42)`: the receipt `wait` returns, or the receipt of the
error `wait` throws, is printed with its status. -/
theorem mined_set_receipt (w : World) (tx : TransactionResponse) :
    (∀ r, Event.call (.wait tx) (.returned (.receipt r)) ∈ (testSimpleContract w).trace →
      Event.log .out [.text "Transaction mined, status:", .num r.status] ∈
        (testSimpleContract w).trace) ∧
    (∀ e r, Event.call (.wait tx) (.threw e) ∈ (testSimpleContract w).trace →
      e.receipt = some r →
      Event.log .out [.text "Receipt status:", .num r.status] ∈
        (testSimpleContract w).trace) := by
  revert tx
  simp only [Script.trace, testSimpleContract, body, setBody, testSimpleContract_handler_run, setHandler_run,
    readGet_bind_run, readStoredData_bind_run, attempt_readGet_bind,
    attempt_readStoredData_bind, attempt_setStep, World.calls, Script.steps]
  repeat' (split <;> try simp only [testSimpleContract_handler_run, setHandler_run,
    readGet_bind_run, readStoredData_bind_run, attempt_readGet_bind,
    attempt_readStoredData_bind, attempt_setStep, Script.steps])
  all_goals
    intro tx
    refine ⟨fun r hmem => ?_, fun e r hmem hre => ?_⟩
    · simp [call_mem_of_isLog (testSimpleContract_isLog_handlerLines _),
        call_mem_of_isLog (isLog_setHandlerLines _)] at hmem <;>
        (obtain ⟨rfl, rfl⟩ := hmem
         simp)
    · simp [call_mem_of_isLog (testSimpleContract_isLog_handlerLines _),
        call_mem_of_isLog (isLog_setHandlerLines _)] at hmem <;>
        (obtain ⟨rfl, rfl⟩ := hmem
         simp [setHandlerLines, hre])

end TestSimpleContract

/-- The label of a receipt line is one `reportsReceipt` recognises. -/
theorem not_all_silent_of_mem {tr : Trace} {ev : Event} (hmem : ev ∈ tr)
    (hev : reportsReceipt ev = true) : ¬ ∀ e ∈ tr, reportsReceipt e = false := by
  intro h
  rw [h ev hmem] at hev
  cases hev

/-- C2. In `checkEVM` and in the `set(42)` step of `testSimpleContract`: a
transaction rejected at broadcast time (the call throws an error without a
receipt) produces no receipt, `wait` is never called and no receipt line is
printed; a transaction that was mined and reverted (the receipt has status
0, returned by `wait` or carried by the error `wait` throws) is printed as a
receipt with that status, so its report is never the receipt-less report of
a rejection. -/
theorem rejected_has_no_receipt_reverted_has_one (w : World) :
    (∀ signedTx e,
      Event.call (.broadcastTransaction signedTx) (.threw e) ∈ (TestEvmCheck.checkEVM w).trace →
      e.receipt = none →
        (∀ tx o, Event.call (.wait tx) o ∉ (TestEvmCheck.checkEVM w).trace) ∧
        (∀ ev ∈ (TestEvmCheck.checkEVM w).trace, reportsReceipt ev = false)) ∧
    (∀ c args overrides e,
      Event.call (.send c (js "set") args overrides) (.threw e) ∈
        (TestSimpleContract.testSimpleContract w).trace →
      e.receipt = none →
        (∀ tx o, Event.call (.wait tx) o ∉ (TestSimpleContract.testSimpleContract w).trace) ∧
        (∀ ev ∈ (TestSimpleContract.testSimpleContract w).trace, reportsReceipt ev = false)) ∧
    (∀ tx r,
      Event.call (.wait tx) (.returned (.receipt r)) ∈ (TestEvmCheck.checkEVM w).trace →
      r.status = 0 →
        Event.log .out [.text "Receipt status:", .num 0] ∈ (TestEvmCheck.checkEVM w).trace ∧
        ¬ ∀ ev ∈ (TestEvmCheck.checkEVM w).trace, reportsReceipt ev = false) ∧
    (∀ tx e r,
      Event.call (.wait tx) (.threw e) ∈ (TestEvmCheck.checkEVM w).trace →
      e.receipt = some r → r.status = 0 →
        Event.log .out [.text "Receipt:", .receipt r] ∈ (TestEvmCheck.checkEVM w).trace ∧
        ¬ ∀ ev ∈ (TestEvmCheck.checkEVM w).trace, reportsReceipt ev = false) ∧
    (∀ tx r,
      Event.call (.wait tx) (.returned (.receipt r)) ∈
        (TestSimpleContract.testSimpleContract w).trace →
      r.status = 0 →
        Event.log .out [.text "Transaction mined, status:", .num 0] ∈
          (TestSimpleContract.testSimpleContract w).trace ∧
        ¬ ∀ ev ∈ (TestSimpleContract.testSimpleContract w).trace, reportsReceipt ev = false) ∧
    (∀ tx e r,
      Event.call (.wait tx) (.threw e) ∈ (TestSimpleContract.testSimpleContract w).trace →
      e.receipt = some r → r.status = 0 →
        Event.log .out [.text "Receipt status:", .num 0] ∈
          (TestSimpleContract.testSimpleContract w).trace ∧
        ¬ ∀ ev ∈ (TestSimpleContract.testSimpleContract w).trace, reportsReceipt ev = false) := by
  refine ⟨fun signedTx e hmem hre => TestEvmCheck.rejected_broadcast w signedTx e hmem hre,
    fun c args overrides e hmem hre =>
      TestSimpleContract.rejected_set w c args overrides e hmem hre,
    fun tx r hmem hst => ?_, fun tx e r hmem hre hst => ?_,
    fun tx r hmem hst => ?_, fun tx e r hmem hre hst => ?_⟩
  · have h := (TestEvmCheck.mined_receipt w tx).1 r hmem
    rw [hst] at h
    exact ⟨h, not_all_silent_of_mem h rfl⟩
  · have h := (TestEvmCheck.mined_receipt w tx).2 e r hmem hre
    exact ⟨h, not_all_silent_of_mem h rfl⟩
  · have h := (TestSimpleContract.mined_set_receipt w tx).1 r hmem
    rw [hst] at h
    exact ⟨h, not_all_silent_of_mem h rfl⟩
  · have h := (TestSimpleContract.mined_set_receipt w tx).2 e r hmem hre
    rw [hst] at h
    exact ⟨h, not_all_silent_of_mem h rfl⟩

/-- C2 at concrete collaborators: a node that refuses the broadcast, and a
node on which the transaction is mined and reverted. -/
theorem rejected_has_no_receipt_reverted_has_one_witness :
    ((∀ tx o, Event.call (.wait tx) o ∉ (TestEvmCheck.checkEVM refusing).trace) ∧
      (∀ ev ∈ (TestEvmCheck.checkEVM refusing).trace, reportsReceipt ev = false)) ∧
    (Event.log .out [.text "Receipt:", .receipt revertedReceipt] ∈
        (TestEvmCheck.checkEVM reverting).trace ∧
      ¬ ∀ ev ∈ (TestEvmCheck.checkEVM reverting).trace, reportsReceipt ev = false) ∧
    (Event.log .out [.text "Transaction mined, status:", .num 0] ∈
        (TestSimpleContract.testSimpleContract revertingQuietly).trace ∧
      ¬ ∀ ev ∈ (TestSimpleContract.testSimpleContract revertingQuietly).trace,
          reportsReceipt ev = false) :=
  ⟨(rejected_has_no_receipt_reverted_has_one refusing).1 (js "0xf86480") rejection
      (by decide) rfl,
    (rejected_has_no_receipt_reverted_has_one reverting).2.2.2.1
      { hash := js "0xb" ++ decimal 5 } revert revertedReceipt (by decide) rfl rfl,
    (rejected_has_no_receipt_reverted_has_one revertingQuietly).2.2.2.2.1
      { hash := js "0xc" ++ decimal 17 } revertedReceipt (by decide) rfl⟩

/-! ## What follows `getCode` -/

namespace CompileAndDeploy

/-- Once `getCode` has returned, the flag is printed and `store(42)` is the
next collaborator call, whatever the code is. -/
theorem compileAndDeploy_after_getCode (w : World) (address code : JsString)
    (hmem : Event.call (.getCode address) (.returned (.str code)) ∈ (compileAndDeploy w).trace) :
    Event.log .out [.text "Deployed code exists:", .bool (codeExists code)] ∈
      (compileAndDeploy w).trace ∧
    ∃ before c after, callsOf (compileAndDeploy w).trace =
      before ++ [.getCode address,
        .send (.deployed c) (js "store") [.num 42] (some (gasOptions 100000 0))] ++ after := by
  revert address code
  simp only [Script.trace, compileAndDeploy, body, compileAndDeploy_handler_run, reportCompilation_bind_run,
    attempt_reportCompilation_bind, World.calls, Script.steps]
  repeat' (split <;> try simp only [compileAndDeploy_handler_run, reportCompilation_bind_run,
    attempt_reportCompilation_bind, Script.steps])
  all_goals
    intro address code hmem
    simp [call_mem_of_isLog (compileAndDeploy_isLog_handlerLines _),
      call_mem_of_isLog (isLog_errorLines _)] at hmem <;>
      (obtain ⟨rfl, rfl⟩ := hmem
       refine ⟨by simp, ?_⟩
       simp only [callsOf_cons_call, callsOf_cons_log, callsOf_append, callsOf_nil,
         callsOf_of_isLog (isLog_errorLines _), callsOf_of_isLog (compileAndDeploy_isLog_handlerLines _),
         List.nil_append, List.append_nil]
       exact ⟨[_, _, _, _, _, _, _], _, _, rfl⟩)

end CompileAndDeploy

namespace TestSimpleContract

/-- Once `getCode` has returned, the flag is printed and `get()`,
`storedData()` and `set(42)` are the next collaborator calls, whatever the
code is. -/
theorem testSimpleContract_after_getCode (w : World) (address code : JsString)
    (hmem : Event.call (.getCode address) (.returned (.str code)) ∈
      (testSimpleContract w).trace) :
    Event.log .out [.text "Contract code exists:", .bool (codeExists code)] ∈
      (testSimpleContract w).trace ∧
    ∃ before c after, callsOf (testSimpleContract w).trace =
      before ++ [.getCode address, .read (.deployed c) (js "get") [],
        .read (.deployed c) (js "storedData") [],
        .send (.deployed c) (js "set") [.num 42] (some (gasOptions 500000 0))] ++ after := by
  revert address code
  simp only [Script.trace, testSimpleContract, body, setBody, testSimpleContract_handler_run, setHandler_run,
    readGet_bind_run, readStoredData_bind_run, attempt_readGet_bind,
    attempt_readStoredData_bind, attempt_setStep, World.calls, Script.steps]
  repeat' (split <;> try simp only [testSimpleContract_handler_run, setHandler_run,
    readGet_bind_run, readStoredData_bind_run, attempt_readGet_bind,
    attempt_readStoredData_bind, attempt_setStep, Script.steps])
  all_goals
    intro address code hmem
    simp [call_mem_of_isLog (testSimpleContract_isLog_handlerLines _),
      call_mem_of_isLog (isLog_setHandlerLines _)] at hmem <;>
      (obtain ⟨rfl, rfl⟩ := hmem
       refine ⟨by simp, ?_⟩
       simp only [callsOf_cons_call, callsOf_cons_log, callsOf_append, callsOf_nil,
         callsOf_of_isLog (isLog_setHandlerLines _), callsOf_of_isLog (testSimpleContract_isLog_handlerLines _),
         List.nil_append, List.append_nil]
       exact ⟨[_, _, _, _], _, _, rfl⟩)

end TestSimpleContract

/-! ## The code-exists flag -/

/-- C4. The code-exists flag of `compileAndDeploy` and `testSimpleContract`
is true exactly when the code string `getCode` returned is longer than 2
characters; it is false for the empty code `0x` and for the empty string.
The flag printed in a run is this function of the code string alone,
whatever the deployment receipt was. -/
theorem codeExists_iff_longer_than_two (w : World) (address code : JsString) :
    (CompileAndDeploy.codeExists code = true ↔ 2 < code.length) ∧
    (TestSimpleContract.codeExists code = true ↔ 2 < code.length) ∧
    CompileAndDeploy.codeExists (js "0x") = false ∧
    TestSimpleContract.codeExists (js "0x") = false ∧
    CompileAndDeploy.codeExists (js "") = false ∧
    TestSimpleContract.codeExists (js "") = false ∧
    (Event.call (.getCode address) (.returned (.str code)) ∈
        (CompileAndDeploy.compileAndDeploy w).trace →
      Event.log .out [.text "Deployed code exists:", .bool (decide (2 < code.length))] ∈
        (CompileAndDeploy.compileAndDeploy w).trace) ∧
    (Event.call (.getCode address) (.returned (.str code)) ∈
        (TestSimpleContract.testSimpleContract w).trace →
      Event.log .out [.text "Contract code exists:", .bool (decide (2 < code.length))] ∈
        (TestSimpleContract.testSimpleContract w).trace) := by
  refine ⟨?_, ?_, by decide, by decide, by decide, by decide, fun hmem => ?_, fun hmem => ?_⟩
  · simp [CompileAndDeploy.codeExists]
  · simp [TestSimpleContract.codeExists]
  · exact (CompileAndDeploy.compileAndDeploy_after_getCode w address code hmem).1
  · exact (TestSimpleContract.testSimpleContract_after_getCode w address code hmem).1

/-- C4 at a concrete run: a node that reports the empty code `0x` makes
both scripts print the flag `false`. -/
theorem codeExists_iff_longer_than_two_witness :
    Event.log .out [.text "Deployed code exists:", .bool false] ∈
      (CompileAndDeploy.compileAndDeploy codeless).trace ∧
    Event.log .out [.text "Contract code exists:", .bool false] ∈
      (TestSimpleContract.testSimpleContract codeless).trace :=
  ⟨(codeExists_iff_longer_than_two codeless
      (js "0x42699A7612A82f1d9C36148af9C77354759b210b") (js "0x")).2.2.2.2.2.2.1 (by decide),
    (codeExists_iff_longer_than_two codeless
      (js "0x42699A7612A82f1d9C36148af9C77354759b210b") (js "0x")).2.2.2.2.2.2.2 (by decide)⟩

/-! ## The verification gate -/

/-- C3, refuted as stated: on a node that reports the empty code `0x` at the
deployed address, `compileAndDeploy` goes on to invoke `store(42)` and
`testSimpleContract` goes on to invoke `get()`, `storedData()` and `set(42)`
on that address. -/
theorem empty_code_methods_still_invoked :
    (Event.call (.getCode (js "0x42699A7612A82f1d9C36148af9C77354759b210b"))
        (.returned (.str (js "0x"))) ∈ (CompileAndDeploy.compileAndDeploy codeless).trace ∧
      ((callsOf (CompileAndDeploy.compileAndDeploy codeless).trace).drop 7).take 2 =
        [.getCode (js "0x42699A7612A82f1d9C36148af9C77354759b210b"),
         .send (.deployed { deploymentTransaction := { hash := js "0xd11" } }) (js "store")
           [.num 42] (some (gasOptions 100000 0))]) ∧
    (Event.call (.getCode (js "0x42699A7612A82f1d9C36148af9C77354759b210b"))
        (.returned (.str (js "0x"))) ∈
        (TestSimpleContract.testSimpleContract codeless).trace ∧
      ((callsOf (TestSimpleContract.testSimpleContract codeless).trace).drop 4).take 4 =
        [.getCode (js "0x42699A7612A82f1d9C36148af9C77354759b210b"),
         .read (.deployed { deploymentTransaction := { hash := js "0xd4" } }) (js "get") [],
         .read (.deployed { deploymentTransaction := { hash := js "0xd4" } })
           (js "storedData") [],
         .send (.deployed { deploymentTransaction := { hash := js "0xd4" } }) (js "set")
           [.num 42] (some (gasOptions 500000 0))]) := by
  refine ⟨⟨by decide, by decide⟩, ⟨by decide, by decide⟩⟩

/-- C3, amended. The code-exists flag is printed and not enforced: in every
run of `compileAndDeploy` in which `getCode` returns, empty code or not, the
next collaborator call is `store(42)` on the deployed contract; in every such
run of `testSimpleContract` the next calls are `get()`, `storedData()` and
`set(42)`. -/
theorem code_flag_printed_not_enforced (w : World) (address code : JsString) :
    (Event.call (.getCode address) (.returned (.str code)) ∈
        (CompileAndDeploy.compileAndDeploy w).trace →
      ∃ before c after, callsOf (CompileAndDeploy.compileAndDeploy w).trace =
        before ++ [.getCode address,
          .send (.deployed c) (js "store") [.num 42] (some (gasOptions 100000 0))] ++ after) ∧
    (Event.call (.getCode address) (.returned (.str code)) ∈
        (TestSimpleContract.testSimpleContract w).trace →
      ∃ before c after, callsOf (TestSimpleContract.testSimpleContract w).trace =
        before ++ [.getCode address, .read (.deployed c) (js "get") [],
          .read (.deployed c) (js "storedData") [],
          .send (.deployed c) (js "set") [.num 42] (some (gasOptions 500000 0))] ++ after) :=
  ⟨fun hmem => (CompileAndDeploy.compileAndDeploy_after_getCode w address code hmem).2,
    fun hmem => (TestSimpleContract.testSimpleContract_after_getCode w address code hmem).2⟩

/-- C3, amended, at a concrete run: the node that reports empty code. -/
theorem code_flag_printed_not_enforced_witness :
    (∃ before c after, callsOf (CompileAndDeploy.compileAndDeploy codeless).trace =
      before ++ [.getCode (js "0x42699A7612A82f1d9C36148af9C77354759b210b"),
        .send (.deployed c) (js "store") [.num 42] (some (gasOptions 100000 0))] ++ after) ∧
    (∃ before c after, callsOf (TestSimpleContract.testSimpleContract codeless).trace =
      before ++ [.getCode (js "0x42699A7612A82f1d9C36148af9C77354759b210b"),
        .read (.deployed c) (js "get") [], .read (.deployed c) (js "storedData") [],
        .send (.deployed c) (js "set") [.num 42] (some (gasOptions 500000 0))] ++ after) :=
  ⟨(code_flag_printed_not_enforced codeless
      (js "0x42699A7612A82f1d9C36148af9C77354759b210b") (js "0x")).1 (by decide),
    (code_flag_printed_not_enforced codeless
      (js "0x42699A7612A82f1d9C36148af9C77354759b210b") (js "0x")).2 (by decide)⟩

/-! ## Gas prices of the transactions the scripts build -/

namespace CompileAndDeploy

theorem compileAndDeploy_zeroFee (w : World) :
    ∀ e ∈ (compileAndDeploy w).trace, ZeroFee e := by
  simp only [Script.trace, compileAndDeploy, body, compileAndDeploy_handler_run, reportCompilation_bind_run,
    attempt_reportCompilation_bind, World.calls, Script.steps]
  repeat' (split <;> try simp only [compileAndDeploy_handler_run, reportCompilation_bind_run,
    attempt_reportCompilation_bind, Script.steps])
  all_goals
    simp only [List.forall_mem_cons, List.forall_mem_append, List.forall_mem_singleton, ZeroFee,
      forall_of_isLog (feeIs_log _) (isLog_errorLines _),
      forall_of_isLog (feeIs_log _) (compileAndDeploy_isLog_handlerLines _)]
    simp [List.forall_mem_nil, feeIs_log, feeIs_call, Call.gasPrice, gasOptions]

end CompileAndDeploy

namespace DeploySolution

set_option maxHeartbeats 1000000 in
theorem main_zeroFee (w : World) : ∀ e ∈ (main w).trace, ZeroFee e := by
  simp only [Script.trace, main, body, storageExample, tokenExample, summary, deployContract,
    main_handler_run, throwOnErrors_bind_run, attempt_throwOnErrors_bind, World.calls, Script.steps]
  repeat' (split <;> try simp only [main_handler_run, throwOnErrors_bind_run,
    attempt_throwOnErrors_bind, Script.steps])
  all_goals
    simp only [List.forall_mem_cons, List.forall_mem_append, List.forall_mem_singleton, ZeroFee,
      forall_of_isLog (feeIs_log _) (main_isLog_handlerLines _)]
    simp [List.forall_mem_nil, feeIs_log, feeIs_call, Call.gasPrice, gasOptions]

end DeploySolution

namespace TestDeploy

theorem testDeploy_zeroFee (w : World) : ∀ e ∈ (testDeploy w).trace, ZeroFee e := by
  simp only [Script.trace, testDeploy, body, testDeploy_handler_run, World.calls, Script.steps]
  repeat' (split <;> try simp only [testDeploy_handler_run, Script.steps])
  all_goals
    simp only [List.forall_mem_cons, List.forall_mem_append, List.forall_mem_singleton, ZeroFee,
      forall_of_isLog (feeIs_log _) (testDeploy_isLog_handlerLines _)]
    simp [List.forall_mem_nil, feeIs_log, feeIs_call, Call.gasPrice, gasOptions]

end TestDeploy

namespace TestEvmCheck

theorem checkEVM_zeroFee (w : World) : ∀ e ∈ (checkEVM w).trace, ZeroFee e := by
  simp only [Script.trace, checkEVM, body, transaction, checkEVM_handler_run, World.calls, Script.steps]
  repeat' (split <;> try simp only [checkEVM_handler_run, Script.steps])
  all_goals
    simp only [List.forall_mem_cons, List.forall_mem_append, List.forall_mem_singleton, ZeroFee,
      forall_of_isLog (feeIs_log _) (checkEVM_isLog_handlerLines _)]
    simp [List.forall_mem_nil, feeIs_log, feeIs_call, Call.gasPrice, gasOptions]

end TestEvmCheck

namespace TestSimpleContract

theorem testSimpleContract_zeroFee (w : World) :
    ∀ e ∈ (testSimpleContract w).trace, ZeroFee e := by
  simp only [Script.trace, testSimpleContract, body, setBody, testSimpleContract_handler_run, setHandler_run,
    readGet_bind_run, readStoredData_bind_run, attempt_readGet_bind,
    attempt_readStoredData_bind, attempt_setStep, World.calls, Script.steps]
  repeat' (split <;> try simp only [testSimpleContract_handler_run, setHandler_run,
    readGet_bind_run, readStoredData_bind_run, attempt_readGet_bind,
    attempt_readStoredData_bind, attempt_setStep, Script.steps])
  all_goals
    simp only [List.forall_mem_cons, List.forall_mem_append, List.forall_mem_singleton, ZeroFee,
      forall_of_isLog (feeIs_log _) (testSimpleContract_isLog_handlerLines _),
      forall_of_isLog (feeIs_log _) (isLog_setHandlerLines _)]
    simp [List.forall_mem_nil, feeIs_log, feeIs_call, Call.gasPrice, gasOptions]

end TestSimpleContract

namespace TestWithChainId

/-- The run of `testWithChainId` builds no transaction. -/
theorem testWithChainId_zeroFee (w : World) :
    ∀ e ∈ (testWithChainId w).trace, ZeroFee e := by
  rw [testWithChainId_trace]
  split <;>
    (simp only [List.forall_mem_cons, List.forall_mem_append, List.forall_mem_singleton, ZeroFee,
       forall_of_isLog (feeIs_log _) (testWithChainId_isLog_handlerLines _)]
     simp [List.forall_mem_nil, feeIs_log, feeIs_call, Call.gasPrice])

end TestWithChainId

namespace Deploy

/-- No transaction of `deploy.js` sets a gas price. -/
theorem noFee (w : World) : ∀ e ∈ (run w).trace, FeeIs none e := by
  simp only [Script.trace, run, deployContract, World.calls, Script.steps]
  repeat' (split <;> try simp only [Script.steps])
  all_goals
    simp only [List.forall_mem_cons, List.forall_mem_append, List.forall_mem_singleton]
    simp [List.forall_mem_nil, feeIs_log, feeIs_call, Call.gasPrice]

end Deploy

set_option maxRecDepth 100000 in
/-- C5, refuted as stated: against a node whose fee data reports 1 gwei,
`deployContract` of `deploy.js` builds its deployment and its `setValue`
transaction with no `gasPrice` at all, the options object being left out of
both calls. -/
theorem gas_price_not_always_zero :
    nominal.getFeeData [] = .ok (some 1000000000) ∧
    Event.call (.deploy Deploy.abi Deploy.bytecode [] none)
        (.returned (.contract { deploymentTransaction := { hash := js "0xd1" } })) ∈
      (Deploy.run nominal).trace ∧
    (Call.deploy Deploy.abi Deploy.bytecode [] none).gasPrice = some none ∧
    Event.call (.send (.deployed { deploymentTransaction := { hash := js "0xd1" } })
        (js "setValue") [.num 100] none) (.returned (.response { hash := js "0xc6" })) ∈
      (Deploy.run nominal).trace ∧
    (Call.send (.deployed { deploymentTransaction := { hash := js "0xd1" } })
        (js "setValue") [.num 100] none).gasPrice = some none :=
  ⟨rfl, by decide, rfl, by decide, rfl⟩

/-- C5, amended. Every deployment or method-call transaction built by
`compileAndDeploy`, `main` of `deploy-solution.js`, `testDeploy`, `checkEVM`,
`testSimpleContract` and `testWithChainId` carries `gasPrice` 0, whatever
`getFeeData` reports; `testWithChainId` builds none, `getNetwork` being its
only collaborator call.  `deployContract` of `deploy.js` sets no gas price
on the transactions it builds. -/
theorem gas_price_zero_where_set (w : World) :
    (∀ e ∈ (CompileAndDeploy.compileAndDeploy w).trace, ZeroFee e) ∧
    (∀ e ∈ (DeploySolution.main w).trace, ZeroFee e) ∧
    (∀ e ∈ (TestDeploy.testDeploy w).trace, ZeroFee e) ∧
    (∀ e ∈ (TestEvmCheck.checkEVM w).trace, ZeroFee e) ∧
    (∀ e ∈ (TestSimpleContract.testSimpleContract w).trace, ZeroFee e) ∧
    (∀ e ∈ (TestWithChainId.testWithChainId w).trace, ZeroFee e) ∧
    callsOf (TestWithChainId.testWithChainId w).trace = [.getNetwork] ∧
    (∀ e ∈ (Deploy.run w).trace, FeeIs none e) :=
  ⟨CompileAndDeploy.compileAndDeploy_zeroFee w, DeploySolution.main_zeroFee w,
    TestDeploy.testDeploy_zeroFee w, TestEvmCheck.checkEVM_zeroFee w,
    TestSimpleContract.testSimpleContract_zeroFee w, TestWithChainId.testWithChainId_zeroFee w,
    TestWithChainId.testWithChainId_calls w, Deploy.noFee w⟩

/-! ## Chain identifiers of the transactions handed to the signer -/

namespace TestWithChainId

/-- The run of `testWithChainId` hands no transaction to the signer. -/
theorem testWithChainId_noChainId (w : World) :
    ∀ e ∈ (testWithChainId w).trace, ChainIdIs none e := by
  rw [testWithChainId_trace]
  split <;>
    (simp only [List.forall_mem_cons, List.forall_mem_append, List.forall_mem_singleton,
       forall_of_isLog (chainIdIs_log _) (testWithChainId_isLog_handlerLines _)]
     simp [List.forall_mem_nil, chainIdIs_log, chainIdIs_call, Call.chainId])

end TestWithChainId

namespace TestEvmCheck

/-- The transaction `checkEVM` signs has no `chainId` field. -/
theorem noChainId (w : World) : ∀ e ∈ (checkEVM w).trace, ChainIdIs none e := by
  simp only [Script.trace, checkEVM, body, transaction, checkEVM_handler_run, World.calls, Script.steps]
  repeat' (split <;> try simp only [checkEVM_handler_run, Script.steps])
  all_goals
    simp only [List.forall_mem_cons, List.forall_mem_append, List.forall_mem_singleton,
      forall_of_isLog (chainIdIs_log _) (checkEVM_isLog_handlerLines _)]
    simp [List.forall_mem_nil, chainIdIs_log, chainIdIs_call, Call.chainId]

end TestEvmCheck

set_option maxRecDepth 100000 in
/-- C6, refuted as stated: the transaction `checkEVM` hands to the signer
has no `chainId` field. -/
theorem checkEVM_signs_without_chain_id :
    Event.call (.signTransaction (TestEvmCheck.transaction nominal 3))
        (.returned (.str (js "0xf86480"))) ∈ (TestEvmCheck.checkEVM nominal).trace ∧
    (TestEvmCheck.transaction nominal 3).chainId = none :=
  ⟨by decide, rfl⟩

/-- C6, amended. No transaction that `checkEVM` hands to the signer has a
`chainId` field.  `testWithChainId` hands no transaction to the signer: the
factory constructor rejects its bytecode, the run ends in the `catch` block,
and `getNetwork` is its only collaborator call. -/
theorem no_signed_transaction_has_chain_id (w : World) :
    (∀ tx o, Event.call (.signTransaction tx) o ∈ (TestEvmCheck.checkEVM w).trace →
      tx.chainId = none) ∧
    (∀ e ∈ (TestEvmCheck.checkEVM w).trace, ChainIdIs none e) ∧
    callsOf (TestWithChainId.testWithChainId w).trace = [.getNetwork] ∧
    (∀ e ∈ (TestWithChainId.testWithChainId w).trace, ChainIdIs none e) ∧
    (∃ pre, (TestWithChainId.testWithChainId w).trace =
      pre ++ TestWithChainId.handlerLines
        (match w.getNetwork [] with
          | .ok _ => w.invalidBytes TestWithChainId.bytecode
          | .error e => e)) :=
  ⟨fun tx o hmem => TestEvmCheck.noChainId w _ hmem _ o rfl tx.chainId rfl,
    TestEvmCheck.noChainId w, TestWithChainId.testWithChainId_calls w,
    TestWithChainId.testWithChainId_noChainId w, by
      rw [TestWithChainId.testWithChainId_trace]
      cases w.getNetwork [] with
      | ok network => exact ⟨_, rfl⟩
      | error e => exact ⟨_, rfl⟩⟩

set_option maxRecDepth 100000 in
/-- C6, amended, at a concrete run: on the nominal node `checkEVM` signs a
transaction, and it has no `chainId` field. -/
theorem no_signed_transaction_has_chain_id_witness :
    Event.call (.signTransaction (TestEvmCheck.transaction nominal 3))
        (.returned (.str (js "0xf86480"))) ∈ (TestEvmCheck.checkEVM nominal).trace ∧
    (TestEvmCheck.transaction nominal 3).chainId = none :=
  ⟨by decide,
    (no_signed_transaction_has_chain_id nominal).1 (TestEvmCheck.transaction nominal 3)
      (.returned (.str (js "0xf86480"))) (by decide)⟩

/-! ## Compile failures and the network -/

namespace DeploySolution

set_option maxHeartbeats 2000000 in
/-- A compilation that reports an error ends the run of `main`: the error
line is the last line and the compile call is the last collaborator call.
The three reads of the node come first. -/
theorem failed_compile_ends_run (w : World) (request : CompileRequest)
    (output : CompilerOutput) (first : CompilerError)
    (hmem : Event.call (.compile request) (.returned (.compiled output)) ∈ (main w).trace)
    (hfirst : (output.errors.getD []).find? (fun err => decide (err.severity = js "error")) =
      some first) :
    (main w).trace.getLast? = some (Event.log .err [.text "\n❌ Error:",
      .str (js "Compilation failed: " ++ first.formattedMessage)]) ∧
    (callsOf (main w).trace).getLast? = some (.compile request) ∧
    ∃ rest, callsOf (main w).trace =
      .getNetwork :: .getBalance w.walletAddress :: .getBlockNumber :: rest := by
  revert request output first
  simp only [Script.trace, main, body, storageExample, tokenExample, summary, deployContract,
    main_handler_run, throwOnErrors_bind_run, attempt_throwOnErrors_bind, World.calls, Script.steps]
  repeat' (split <;> try simp only [main_handler_run, throwOnErrors_bind_run,
    attempt_throwOnErrors_bind, Script.steps])
  all_goals
    intro request output first hmem hfirst
    simp [call_mem_of_isLog (main_isLog_handlerLines _)] at hmem <;>
      rcases hmem with ⟨rfl, rfl⟩ | ⟨rfl, rfl⟩ <;>
      simp_all only [Option.some.injEq, reduceCtorEq] <;>
      simp [handlerLines, newError, callsOf_cons_call, callsOf_cons_log, callsOf_nil]

end DeploySolution

namespace CompileAndDeploy

/-- The error lines are lines of the error loop. -/
theorem filter_errorLines (output : CompilerOutput) :
    (errorLines output).filter isErrorLine = errorLines output := by
  rw [List.filter_eq_self]
  intro e he
  simp only [errorLines, List.mem_map] at he
  obtain ⟨err, _, rfl⟩ := he
  rfl

/-- The `catch` block prints no line of the error loop. -/
theorem filter_handlerLines (error : JsError) :
    (handlerLines error).filter isErrorLine = [] := by
  obtain ⟨name, message, receipt, transaction, data, reason, info⟩ := error
  cases receipt <;> cases transaction <;> rfl

/-- A run of `compileAndDeploy` in which the compiler returned: the lines of
the error loop are the error lines of the output, one per entry of severity
`error` and in their order; without the contract entry the run makes no
further collaborator call, and with it the next call is `getBalance`. -/
theorem compile_returned_run (w : World) (request : CompileRequest) (output : CompilerOutput)
    (hmem : Event.call (.compile request) (.returned (.compiled output)) ∈
      (compileAndDeploy w).trace) :
    (compileAndDeploy w).trace.filter isErrorLine = errorLines output ∧
    (∀ e, contractEntry output (js "SimpleStorage.sol") (js "SimpleStorage") = .error e →
      callsOf (compileAndDeploy w).trace =
        [.readFileSync (js "SimpleStorage.sol") (js "utf8"), .compile request]) ∧
    (∀ entry, contractEntry output (js "SimpleStorage.sol") (js "SimpleStorage") = .ok entry →
      ∃ rest, callsOf (compileAndDeploy w).trace =
        .readFileSync (js "SimpleStorage.sol") (js "utf8") :: .compile request ::
          .getBalance w.walletAddress :: rest) := by
  revert request output
  simp only [Script.trace, compileAndDeploy, body, compileAndDeploy_handler_run,
    reportCompilation_bind_run, attempt_reportCompilation_bind, World.calls, Script.steps]
  repeat' (split <;> try simp only [compileAndDeploy_handler_run, reportCompilation_bind_run,
    attempt_reportCompilation_bind, Script.steps])
  all_goals
    intro request output hmem
    simp [call_mem_of_isLog (compileAndDeploy_isLog_handlerLines _),
      call_mem_of_isLog (isLog_errorLines _)] at hmem
  all_goals
    obtain ⟨rfl, rfl⟩ := hmem
    simp [*, List.filter_cons, List.filter_append, isErrorLine, filter_errorLines,
      filter_handlerLines, callsOf_cons_call, callsOf_cons_log, callsOf_nil, callsOf_append,
      callsOf_of_isLog (isLog_errorLines _),
      callsOf_of_isLog (compileAndDeploy_isLog_handlerLines _)]

end CompileAndDeploy

set_option maxRecDepth 100000 in
/-- C7, refuted as stated: on a compiler output that reports two errors,
`main` has issued `getNetwork`, `getBalance` and `getBlockNumber` before
compiling, and `compileAndDeploy`, given the contract entry, prints the
errors and goes on to the network, the deployment included. -/
theorem compile_error_reaches_network :
    (∃ err ∈ failingOutput.errors.getD [], err.severity = js "error") ∧
    (callsOf (DeploySolution.main (withOutput failingOutput)).trace).map isNetworkCall =
      [true, true, true, false] ∧
    (callsOf (CompileAndDeploy.compileAndDeploy (withOutput failingOutput)).trace).map
        isNetworkCall =
      [false, false, true, true, true, true, true, true, true, true, true, true] ∧
    Event.call (.deploy [js "[]"] (js "0x6080") [] (some (gasOptions 3000000 0)))
        (.returned (.contract { deploymentTransaction := { hash := js "0xd13" } })) ∈
      (CompileAndDeploy.compileAndDeploy (withOutput failingOutput)).trace :=
  ⟨⟨{ severity := js "error", formattedMessage := js "ParserError: first" }, by decide, rfl⟩,
    by decide, by decide, by decide⟩

/-- C7, amended. When the compiler output has an entry of severity `error`,
`main` of `deploy-solution.js` stops at the failed compilation: the line
`Compilation failed: ` with the first error message is the last line of the
run and the compile call is its last collaborator call; `getNetwork`,
`getBalance` and `getBlockNumber` are its first three collaborator calls,
issued before compiling.
`compileAndDeploy` prints one `Compilation error:` line per entry of
severity `error`, in their order, and does not stop for them: when the
output holds no `SimpleStorage` entry it makes no further collaborator call,
so no network operation, and when the output holds the entry its next call
is `getBalance`. -/
theorem compile_error_stops_pipeline (w : World) (request : CompileRequest)
    (output : CompilerOutput) :
    (∀ first, Event.call (.compile request) (.returned (.compiled output)) ∈
        (DeploySolution.main w).trace →
      (output.errors.getD []).find? (fun err => decide (err.severity = js "error")) =
        some first →
      (DeploySolution.main w).trace.getLast? = some (Event.log .err [.text "\n❌ Error:",
        .str (js "Compilation failed: " ++ first.formattedMessage)]) ∧
      (callsOf (DeploySolution.main w).trace).getLast? = some (.compile request) ∧
      ∃ between, callsOf (DeploySolution.main w).trace =
        .getNetwork :: .getBalance w.walletAddress :: .getBlockNumber ::
          (between ++ [.compile request])) ∧
    (Event.call (.compile request) (.returned (.compiled output)) ∈
        (CompileAndDeploy.compileAndDeploy w).trace →
      (CompileAndDeploy.compileAndDeploy w).trace.filter isErrorLine =
        ((output.errors.getD []).filter (fun err => err.severity = js "error")).map
          (fun err => Event.log .err [.text "Compilation error:", .str err.formattedMessage]) ∧
      (∀ e, contractEntry output (js "SimpleStorage.sol") (js "SimpleStorage") = .error e →
        callsOf (CompileAndDeploy.compileAndDeploy w).trace =
          [.readFileSync (js "SimpleStorage.sol") (js "utf8"), .compile request]) ∧
      (∀ entry,
        contractEntry output (js "SimpleStorage.sol") (js "SimpleStorage") = .ok entry →
        ∃ rest, callsOf (CompileAndDeploy.compileAndDeploy w).trace =
          .readFileSync (js "SimpleStorage.sol") (js "utf8") :: .compile request ::
            .getBalance w.walletAddress :: rest)) :=
  ⟨fun first hmem hfirst =>
      let ⟨hline, hlast, rest, hrest⟩ :=
        DeploySolution.failed_compile_ends_run w request output first hmem hfirst
      ⟨hline, hlast, calls_before_last _ _ _ _ _ rest hrest hlast (by simp)⟩,
    fun hmem => CompileAndDeploy.compile_returned_run w request output hmem⟩

set_option maxRecDepth 100000 in
/-- C7, amended, at concrete runs: a compiler output with a warning and two
errors stops `main` at the compile call and makes `compileAndDeploy` print
two lines, and an output without contracts stops `compileAndDeploy` before
the network. -/
theorem compile_error_stops_pipeline_witness :
    (callsOf (DeploySolution.main (withOutput failingOutput)).trace).getLast? =
      some (.compile (DeploySolution.compileInput DeploySolution.simpleStorageSource
        (js "SimpleStorage"))) ∧
    (CompileAndDeploy.compileAndDeploy (withOutput failingOutput)).trace.filter isErrorLine =
      [.log .err [.text "Compilation error:", .str (js "ParserError: first")],
       .log .err [.text "Compilation error:", .str (js "TypeError: second")]] ∧
    callsOf (CompileAndDeploy.compileAndDeploy (withOutput failedOutput)).trace =
      [.readFileSync (js "SimpleStorage.sol") (js "utf8"),
       .compile (CompileAndDeploy.compileInput (js "contract SimpleStorage \x7b\x7d"))] :=
  ⟨((compile_error_stops_pipeline (withOutput failingOutput)
      (DeploySolution.compileInput DeploySolution.simpleStorageSource (js "SimpleStorage"))
      failingOutput).1 { severity := js "error", formattedMessage := js "ParserError: first" }
      (by decide) (by decide)).2.1,
    ((compile_error_stops_pipeline (withOutput failingOutput)
      (CompileAndDeploy.compileInput (js "contract SimpleStorage \x7b\x7d"))
      failingOutput).2 (by decide)).1,
    ((compile_error_stops_pipeline (withOutput failedOutput)
      (CompileAndDeploy.compileInput (js "contract SimpleStorage \x7b\x7d"))
      failedOutput).2 (by decide)).2.1 (typeErrorReading (js "SimpleStorage.sol")) rfl⟩

/-! ## The outcome of the entry points -/

/-- C8, refuted as stated: on a node that refuses the deployment, the
deploy step raises an error and `compileAndDeploy` and `main` still end with
the success outcome: the promise fulfils and the exit code is 0. -/
theorem failed_deploy_still_fulfils :
    Event.call (.deploy [js "[]"] (js "0x6080") [] (some (gasOptions 3000000 0)))
        (.threw rejection) ∈ (CompileAndDeploy.compileAndDeploy refusingDeploy).trace ∧
    (CompileAndDeploy.compileAndDeploy refusingDeploy).result = .ok () ∧
    exitCode (CompileAndDeploy.compileAndDeploy refusingDeploy).result = 0 ∧
    Event.call (.deploy [js "[]"] (js "0x6080") [] (some (gasOptions 3000000 0)))
        (.threw rejection) ∈ (DeploySolution.main refusingDeploy).trace ∧
    (DeploySolution.main refusingDeploy).result = .ok () ∧
    exitCode (DeploySolution.run refusingDeploy).result = 0 :=
  ⟨by decide, rfl, rfl, by decide, rfl, rfl⟩

/-- C8, amended. `compileAndDeploy` and `main` always end with the success
outcome, whether the pipeline succeeded or a step raised an error: the
promise fulfils and the exit code is 0.  An error raised in the `try` block
is printed by the `catch` block as an `Error:` line with its message. -/
theorem entry_points_always_fulfil (w : World) (tr : Trace) :
    (CompileAndDeploy.compileAndDeploy w tr).1 = .ok () ∧
    (DeploySolution.main w tr).1 = .ok () ∧
    (DeploySolution.run w tr).1 = .ok () ∧
    exitCode (CompileAndDeploy.compileAndDeploy w tr).1 = 0 ∧
    exitCode (DeploySolution.run w tr).1 = 0 ∧
    (∀ e, (CompileAndDeploy.body w tr).1 = .error e →
      Event.log .err [.text "\nError:", .str e.message] ∈
        (CompileAndDeploy.compileAndDeploy w tr).2) ∧
    (∀ e, (DeploySolution.body w tr).1 = .error e →
      Event.log .err [.text "\n❌ Error:", .str e.message] ∈ (DeploySolution.main w tr).2) := by
  have h1 : (CompileAndDeploy.compileAndDeploy w tr).1 = .ok () :=
    Script.attempt_ok _ _ (fun e t => by rw [CompileAndDeploy.compileAndDeploy_handler_run]) tr
  have h2 : ∀ t, (DeploySolution.main w t).1 = .ok () := fun t =>
    Script.attempt_ok _ _ (fun e t => by rw [DeploySolution.main_handler_run]) t
  have h3 : (DeploySolution.run w tr).1 = .ok () := by
    have hrun : DeploySolution.run w tr = DeploySolution.main w tr :=
      Script.attempt_of_ok _ _ tr () (h2 tr)
    rw [hrun]
    exact h2 tr
  refine ⟨h1, h2 tr, h3, by rw [h1]; rfl, by rw [h3]; rfl, fun e he => ?_, fun e he => ?_⟩
  · simp only [CompileAndDeploy.compileAndDeploy, Script.tryCatch_run, Script.attempt]
    rcases hb : CompileAndDeploy.body w tr with ⟨r, tr1⟩
    rw [hb] at he
    cases he
    simp [CompileAndDeploy.compileAndDeploy_handler_run, CompileAndDeploy.handlerLines]
  · simp only [DeploySolution.main, Script.tryCatch_run, Script.attempt]
    rcases hb : DeploySolution.body w tr with ⟨r, tr1⟩
    rw [hb] at he
    cases he
    simp [DeploySolution.main_handler_run, DeploySolution.handlerLines]

/-- C8, amended, at a concrete run: the refused deployment is printed. -/
theorem entry_points_always_fulfil_witness :
    Event.log .err [.text "\nError:", .str (js "insufficient funds")] ∈
      (CompileAndDeploy.compileAndDeploy refusingDeploy).trace :=
  (entry_points_always_fulfil refusingDeploy []).2.2.2.2.2.1 rejection rfl

/-! ## The data of a failed transaction -/

/-- C9, refuted as stated: for an error whose transaction has no `data`
field, the reported data field is the text `undefined...`, which is not the
first 100 characters of an empty payload followed by `...`. -/
theorem missing_data_prints_undefined :
    CompileAndDeploy.reportedData none = js "undefined..." ∧
    CompileAndDeploy.reportedData none ≠ substring0 (js "") 100 ++ js "..." ∧
    Event.log .err [.text "Failed transaction data:",
        .transactionData (some (js "0xFE3B")) none (js "undefined...")] ∈
      (CompileAndDeploy.compileAndDeploy refusingDeploy).trace :=
  ⟨by decide, by decide, by decide⟩

/-- C9, amended. For every error caught by `compileAndDeploy` that carries
a transaction, the `catch` block prints the transaction with its data field
reported as follows: when the transaction has a `data` field, its first 100
characters (the whole data when it has at most 100) followed by `...`, so at
most 100 characters of the payload are shown; when it has no `data` field,
the text `undefined...`. -/
theorem reported_data_is_truncated (w : World) (tr : Trace) (e : JsError)
    (t : ErrorTransaction) (hbody : (CompileAndDeploy.body w tr).1 = .error e)
    (ht : e.transaction = some t) :
    Event.log .err [.text "Failed transaction data:",
        .transactionData t.from_ t.to_ (CompileAndDeploy.reportedData t.data)] ∈
      (CompileAndDeploy.compileAndDeploy w tr).2 ∧
    (∀ data, t.data = some data →
      CompileAndDeploy.reportedData t.data = data.take 100 ++ js "..." ∧
      (data.length ≤ 100 → CompileAndDeploy.reportedData t.data = data ++ js "...") ∧
      (CompileAndDeploy.reportedData t.data).length ≤ 103) ∧
    (t.data = none → CompileAndDeploy.reportedData t.data = js "undefined...") := by
  refine ⟨?_, fun data hd => ?_, fun hd => ?_⟩
  · simp only [CompileAndDeploy.compileAndDeploy, Script.tryCatch_run, Script.attempt]
    rcases hb : CompileAndDeploy.body w tr with ⟨r, tr1⟩
    rw [hb] at hbody
    cases hbody
    simp [CompileAndDeploy.compileAndDeploy_handler_run, CompileAndDeploy.handlerLines,
      CompileAndDeploy.transactionLines, ht]
  · have hlen : (js "...").length = 3 := by decide
    rw [hd]
    refine ⟨rfl, fun hle => ?_, ?_⟩
    · simp [CompileAndDeploy.reportedData, plusString, substring0, List.take_of_length_le hle]
    · simp only [CompileAndDeploy.reportedData, plusString, substring0, Option.map_some',
        List.length_append, List.length_take, hlen]
      omega
  · rw [hd]
    decide

/-- C9, amended, at a concrete run: a refused deployment whose transaction
data has 202 characters is reported by its first 100 characters. -/
theorem reported_data_is_truncated_witness :
    Event.log .err [.text "Failed transaction data:",
        .transactionData (some (js "0xFE3B")) none
          (CompileAndDeploy.reportedData (some (js "0x" ++ List.replicate 200 97)))] ∈
      (CompileAndDeploy.compileAndDeploy refusingData).trace ∧
    CompileAndDeploy.reportedData (some (js "0x" ++ List.replicate 200 97)) =
      js "0x" ++ List.replicate 98 97 ++ js "..." :=
  ⟨(reported_data_is_truncated refusingData [] rejectionWithData
      { from_ := some (js "0xFE3B"), to_ := none,
        data := some (js "0x" ++ List.replicate 200 97) } rfl rfl).1,
    by decide⟩

/-! ## Store then retrieve -/

theorem confirmStep_log (c : ContractRef) (s : List (TransactionResponse × Nat) × Option Nat)
    (stream : Stream) (args : List LogArg) : confirmStep c s (.log stream args) = s := rfl

/-- Console lines confirm nothing. -/
theorem foldl_confirmStep_of_isLog (c : ContractRef) {lines : Trace}
    (h : ∀ e ∈ lines, e.IsLog) (s : List (TransactionResponse × Nat) × Option Nat) :
    lines.foldl (confirmStep c) s = s := by
  induction lines generalizing s with
  | nil => rfl
  | cons e rest ih =>
    obtain ⟨stream, args, rfl⟩ := h e (List.mem_cons_self _ _)
    rw [List.foldl_cons, confirmStep_log]
    exact ih (fun e he => h e (List.mem_cons_of_mem _ he)) s

theorem js_retrieve_ne_number : js "retrieve" ≠ js "number" := by decide

namespace CompileAndDeploy

/-- A run of `compileAndDeploy` that calls `retrieve()` has deployed with
gas limit 3000000 and gas price 0, invoked `store(42)` and awaited its
receipt before; `retrieve()` is answered from a trace whose last confirmed
`store` has the argument 42, and a returned value is printed. -/
theorem compileAndDeploy_reaches_retrieve (w : World) (c : ContractRef) (o : Outcome)
    (hmem : Event.call (.read c (js "retrieve") []) o ∈ (compileAndDeploy w).trace) :
    ∃ abi bytecode contract address tx before after asked result,
      c = .deployed contract ∧
      w.read asked c (js "retrieve") [] = result ∧
      o = readOutcome result ∧
      lastConfirmedStore c asked = some 42 ∧
      callsOf (compileAndDeploy w).trace =
        before ++ [.deploy abi bytecode [] (some (gasOptions 3000000 0)),
          .waitForDeployment contract, .getAddress contract, .getCode address,
          .send (.deployed contract) (js "store") [.num 42] (some (gasOptions 100000 0)),
          .wait tx, .read (.deployed contract) (js "retrieve") []] ++ after ∧
      (∃ receipt, Event.call (.wait tx) (.returned (.receipt receipt)) ∈
        (compileAndDeploy w).trace) ∧
      (∀ v, o = .returned (.num v) →
        Event.log .out [.text "Retrieved value:", .str (decimal v)] ∈
          (compileAndDeploy w).trace) := by
  revert c o
  simp only [Script.trace, compileAndDeploy, body, compileAndDeploy_handler_run, reportCompilation_bind_run,
    attempt_reportCompilation_bind, World.calls, Script.steps]
  repeat' (split <;> try simp only [compileAndDeploy_handler_run, reportCompilation_bind_run,
    attempt_reportCompilation_bind, Script.steps])
  all_goals
    intro c o hmem
    simp [call_mem_of_isLog (compileAndDeploy_isLog_handlerLines _), call_mem_of_isLog (isLog_errorLines _),
      js_retrieve_ne_number] at hmem <;>
      obtain ⟨rfl, rfl⟩ := hmem <;>
      exact ⟨_, _, _, _, _, [_, _, _, _], _, _, _, by rfl, by assumption, by rfl,
        by simp [lastConfirmedStore, List.foldl_cons, List.foldl_append,
          foldl_confirmStep_of_isLog _ (isLog_errorLines _), confirmStep],
        by simp only [callsOf_cons_call, callsOf_cons_log, callsOf_append, callsOf_nil,
            callsOf_of_isLog (isLog_errorLines _), callsOf_of_isLog (compileAndDeploy_isLog_handlerLines _),
            List.nil_append, List.append_nil]
           rfl,
        by simp [call_mem_of_isLog (isLog_errorLines _)], by simp⟩

end CompileAndDeploy

namespace CompileAndDeploy

/-- A run whose `try` block completes has called `retrieve()`. -/
theorem compileAndDeploy_completes_reaches_retrieve (w : World) (hbody : (body w []).1 = .ok ()) :
    ∃ c o, Event.call (.read c (js "retrieve") []) o ∈ (compileAndDeploy w).trace := by
  revert hbody
  simp only [Script.trace, compileAndDeploy, body, compileAndDeploy_handler_run, reportCompilation_bind_run,
    attempt_reportCompilation_bind, World.calls, Script.steps]
  repeat' (split <;> try simp only [compileAndDeploy_handler_run, reportCompilation_bind_run,
    attempt_reportCompilation_bind, Script.steps])
  all_goals
    intro hbody
    (try simp at hbody) <;> simp [call_mem_of_isLog (isLog_errorLines _), js_retrieve_ne_number]

end CompileAndDeploy

namespace TestDeploy

/-- A run of `testDeploy` that calls `retrieve()` has deployed with gas
limit 3000000 and gas price 0, invoked `store(42)` and awaited its receipt
before; `retrieve()` is answered from a trace whose last confirmed `store`
has the argument 42, and a returned value is printed. -/
theorem testDeploy_reaches_retrieve (w : World) (c : ContractRef) (o : Outcome)
    (hmem : Event.call (.read c (js "retrieve") []) o ∈ (testDeploy w).trace) :
    ∃ contract tx before after asked result,
      c = .deployed contract ∧
      w.read asked c (js "retrieve") [] = result ∧
      o = readOutcome result ∧
      lastConfirmedStore c asked = some 42 ∧
      callsOf (testDeploy w).trace =
        before ++ [.deploy abi bytecode [] (some (gasOptions 3000000 0)),
          .waitForDeployment contract, .getAddress contract,
          .send (.deployed contract) (js "store") [.num 42] (some (gasOptions 100000 0)),
          .wait tx, .read (.deployed contract) (js "retrieve") []] ++ after ∧
      (∃ receipt, Event.call (.wait tx) (.returned (.receipt receipt)) ∈
        (testDeploy w).trace) ∧
      (∀ v, o = .returned (.num v) →
        Event.log .out [.text "Retrieved value:", .str (decimal v)] ∈
          (testDeploy w).trace) := by
  revert c o
  simp only [Script.trace, testDeploy, body, testDeploy_handler_run, World.calls, Script.steps]
  repeat' (split <;> try simp only [testDeploy_handler_run, Script.steps])
  all_goals
    intro c o hmem
    simp [call_mem_of_isLog (testDeploy_isLog_handlerLines _)] at hmem <;>
      obtain ⟨rfl, rfl⟩ := hmem <;>
      exact ⟨_, _, [_, _, _], _, _, _, by rfl, by assumption, by rfl,
        by simp [lastConfirmedStore, List.foldl_cons, confirmStep],
        by simp only [callsOf_cons_call, callsOf_cons_log, callsOf_append, callsOf_nil,
            callsOf_of_isLog (testDeploy_isLog_handlerLines _), List.nil_append, List.append_nil]
           rfl,
        by simp, by simp⟩

/-- A run whose `try` block completes has called `retrieve()`. -/
theorem testDeploy_completes_reaches_retrieve (w : World) (hbody : (body w []).1 = .ok ()) :
    ∃ c o, Event.call (.read c (js "retrieve") []) o ∈ (testDeploy w).trace := by
  revert hbody
  simp only [Script.trace, testDeploy, body, testDeploy_handler_run, World.calls, Script.steps]
  repeat' (split <;> try simp only [testDeploy_handler_run, Script.steps])
  all_goals
    intro hbody
    (try simp at hbody) <;> simp

end TestDeploy

namespace CompileAndDeploy

/-- Every deployment of `compileAndDeploy` carries gas limit 3000000 and gas
price 0, and every method transaction is `store(42)`. -/
theorem compileAndDeploy_followsScenario (w : World) :
    ∀ c ∈ callsOf (compileAndDeploy w).trace, c.followsScenario := by
  simp only [Script.trace, compileAndDeploy, body, compileAndDeploy_handler_run,
    reportCompilation_bind_run, attempt_reportCompilation_bind, World.calls, Script.steps]
  repeat' (split <;> try simp only [compileAndDeploy_handler_run, reportCompilation_bind_run,
    attempt_reportCompilation_bind, Script.steps])
  all_goals
    simp [callsOf_cons_call, callsOf_cons_log, callsOf_nil, callsOf_append,
      callsOf_of_isLog (isLog_errorLines _),
      callsOf_of_isLog (compileAndDeploy_isLog_handlerLines _), Call.followsScenario]

end CompileAndDeploy

namespace TestDeploy

/-- Every deployment of `testDeploy` carries gas limit 3000000 and gas price
0, and every method transaction is `store(42)`. -/
theorem testDeploy_followsScenario (w : World) :
    ∀ c ∈ callsOf (testDeploy w).trace, c.followsScenario := by
  simp only [Script.trace, testDeploy, body, testDeploy_handler_run, World.calls, Script.steps]
  repeat' (split <;> try simp only [testDeploy_handler_run, Script.steps])
  all_goals
    simp [callsOf_cons_call, callsOf_cons_log, callsOf_nil, callsOf_append,
      callsOf_of_isLog (testDeploy_isLog_handlerLines _), Call.followsScenario]

end TestDeploy

/-- The nominal collaborator returns the last confirmed `store`. -/
theorem nominal_retrievesLastStore : RetrievesLastStore nominal := by
  intro tr c n h
  simp [nominal, h]

/-- A node that refuses every deployment still returns the last confirmed
`store` from `retrieve()`. -/
theorem refusingDeploy_retrievesLastStore : RetrievesLastStore refusingDeploy := by
  intro tr c n h
  simp [refusingDeploy, nominal, h]

set_option maxRecDepth 100000 in
/-- C10, refuted as stated: a node that refuses every deployment returns the
last confirmed `store` from `retrieve()`, and against it both scripts stop
at the refused deployment: no `store` is invoked, no receipt is awaited and
`retrieve()` is not called. -/
theorem refused_deployment_stores_nothing :
    RetrievesLastStore refusingDeploy ∧
    callsOf (CompileAndDeploy.compileAndDeploy refusingDeploy).trace =
      [.readFileSync (js "SimpleStorage.sol") (js "utf8"),
       .compile (CompileAndDeploy.compileInput (js "contract SimpleStorage \x7b\x7d")),
       .getBalance refusingDeploy.walletAddress, .getNetwork,
       .deploy [js "[]"] (js "0x6080") [] (some (gasOptions 3000000 0))] ∧
    callsOf (TestDeploy.testDeploy refusingDeploy).trace =
      [.getBalance refusingDeploy.walletAddress, .getNetwork, .getFeeData,
       .deploy TestDeploy.abi TestDeploy.bytecode [] (some (gasOptions 3000000 0))] :=
  ⟨refusingDeploy_retrievesLastStore, by decide, by decide⟩

/-- C10, amended. Against a collaborator whose `retrieve()` returns the
argument of the last confirmed `store`: in every run of `compileAndDeploy`
and `testDeploy` a deployment that is submitted carries gas limit 3000000
and gas price 0 and a method transaction that is invoked is `store(42)`;
every run that gets to call `retrieve()` has submitted the deployment,
invoked `store(42)` and awaited the store receipt before the `retrieve()`
call, and `retrieve()` returns 42, which is printed; every run whose `try`
block raises no error gets to call `retrieve()`.  A run in which a
collaborator call fails stops there. -/
theorem store_42_then_retrieve_42 (w : World) (hw : RetrievesLastStore w) :
    (∀ c o, Event.call (.read c (js "retrieve") []) o ∈
        (CompileAndDeploy.compileAndDeploy w).trace →
      ∃ abi bytecode contract address tx before after,
        c = .deployed contract ∧ o = .returned (.num 42) ∧
        callsOf (CompileAndDeploy.compileAndDeploy w).trace =
          before ++ [.deploy abi bytecode [] (some (gasOptions 3000000 0)),
            .waitForDeployment contract, .getAddress contract, .getCode address,
            .send (.deployed contract) (js "store") [.num 42] (some (gasOptions 100000 0)),
            .wait tx, .read (.deployed contract) (js "retrieve") []] ++ after ∧
        (∃ receipt, Event.call (.wait tx) (.returned (.receipt receipt)) ∈
          (CompileAndDeploy.compileAndDeploy w).trace) ∧
        Event.log .out [.text "Retrieved value:", .str (js "42")] ∈
          (CompileAndDeploy.compileAndDeploy w).trace) ∧
    ((CompileAndDeploy.body w []).1 = .ok () →
      ∃ c o, Event.call (.read c (js "retrieve") []) o ∈
        (CompileAndDeploy.compileAndDeploy w).trace) ∧
    (∀ c o, Event.call (.read c (js "retrieve") []) o ∈ (TestDeploy.testDeploy w).trace →
      ∃ contract tx before after,
        c = .deployed contract ∧ o = .returned (.num 42) ∧
        callsOf (TestDeploy.testDeploy w).trace =
          before ++ [.deploy TestDeploy.abi TestDeploy.bytecode []
              (some (gasOptions 3000000 0)),
            .waitForDeployment contract, .getAddress contract,
            .send (.deployed contract) (js "store") [.num 42] (some (gasOptions 100000 0)),
            .wait tx, .read (.deployed contract) (js "retrieve") []] ++ after ∧
        (∃ receipt, Event.call (.wait tx) (.returned (.receipt receipt)) ∈
          (TestDeploy.testDeploy w).trace) ∧
        Event.log .out [.text "Retrieved value:", .str (js "42")] ∈
          (TestDeploy.testDeploy w).trace) ∧
    ((TestDeploy.body w []).1 = .ok () →
      ∃ c o, Event.call (.read c (js "retrieve") []) o ∈ (TestDeploy.testDeploy w).trace) ∧
    (∀ c ∈ callsOf (CompileAndDeploy.compileAndDeploy w).trace, c.followsScenario) ∧
    (∀ c ∈ callsOf (TestDeploy.testDeploy w).trace, c.followsScenario) := by
  refine ⟨fun c o hmem => ?_, CompileAndDeploy.compileAndDeploy_completes_reaches_retrieve w,
    fun c o hmem => ?_, TestDeploy.testDeploy_completes_reaches_retrieve w,
    CompileAndDeploy.compileAndDeploy_followsScenario w, TestDeploy.testDeploy_followsScenario w⟩
  · obtain ⟨abi, bytecode, contract, address, tx, before, after, asked, result, hc, hask, ho,
      hlast, hcalls, hwait, hlog⟩ := CompileAndDeploy.compileAndDeploy_reaches_retrieve w c o hmem
    have h42 : o = .returned (.num 42) := by
      rw [ho, ← hask, hw asked c 42 hlast]
      rfl
    exact ⟨abi, bytecode, contract, address, tx, before, after, hc, h42, hcalls, hwait,
      hlog 42 h42⟩
  · obtain ⟨contract, tx, before, after, asked, result, hc, hask, ho, hlast, hcalls, hwait,
      hlog⟩ := TestDeploy.testDeploy_reaches_retrieve w c o hmem
    have h42 : o = .returned (.num 42) := by
      rw [ho, ← hask, hw asked c 42 hlast]
      rfl
    exact ⟨contract, tx, before, after, hc, h42, hcalls, hwait, hlog 42 h42⟩

set_option maxRecDepth 100000 in
/-- C10, amended, at a concrete collaborator, a node that mines every
transaction and keeps the stored number: both scripts print the retrieved
value 42. -/
theorem store_42_then_retrieve_42_witness :
    RetrievesLastStore nominal ∧
    Event.log .out [.text "Retrieved value:", .str (js "42")] ∈
      (CompileAndDeploy.compileAndDeploy nominal).trace ∧
    Event.log .out [.text "Retrieved value:", .str (js "42")] ∈
      (TestDeploy.testDeploy nominal).trace :=
  ⟨nominal_retrievesLastStore,
    let ⟨_, _, _, _, _, _, _, _, _, _, _, hlog⟩ :=
      (store_42_then_retrieve_42 nominal nominal_retrievesLastStore).1
        (.deployed { deploymentTransaction := { hash := js "0xd11" } })
        (.returned (.num 42)) (by decide)
    hlog,
    let ⟨_, _, _, _, _, _, _, _, hlog⟩ :=
      (store_42_then_retrieve_42 nominal nominal_retrievesLastStore).2.2.1
        (.deployed { deploymentTransaction := { hash := js "0xd8" } })
        (.returned (.num 42)) (by decide)
    hlog⟩

/-! ## The nonce of `checkEVM` -/

namespace TestEvmCheck

/-- A run of `checkEVM` that signs a transaction starts with the start line,
the count request, the transaction line and the signing; the count is
requested once, for the wallet address and without a block tag, and its
answer is the nonce. -/
theorem checkEVM_nonce_steps (w : World) (tx : TransactionRequest) (o : Outcome)
    (hmem : Event.call (.signTransaction tx) o ∈ (checkEVM w).trace) :
    ∃ n post,
      w.getTransactionCount [.log .out [.text "Testing minimal contract deployment..."]]
        w.walletAddress none = .ok n ∧
      tx = transaction w n ∧
      (checkEVM w).trace =
        [.log .out [.text "Testing minimal contract deployment..."],
         .call (.getTransactionCount w.walletAddress none) (.returned (.num n)),
         .log .out [.text "Transaction:", .transaction tx],
         .call (.signTransaction tx) o] ++ post ∧
      (∀ address blockTag o1, Event.call (.getTransactionCount address blockTag) o1 ∉ post) ∧
      (∀ tx1 o1, Event.call (.signTransaction tx1) o1 ∉ post) := by
  revert tx o
  simp only [Script.trace, checkEVM, body, checkEVM_handler_run, World.calls, Script.steps]
  repeat' (split <;> try simp only [checkEVM_handler_run, Script.steps])
  all_goals
    intro tx o hmem
    simp [call_mem_of_isLog (checkEVM_isLog_handlerLines _)] at hmem
  all_goals
    obtain ⟨rfl, rfl⟩ := hmem
    exact ⟨_, _, by assumption, rfl, rfl,
      by simp [call_mem_of_isLog (checkEVM_isLog_handlerLines _)],
      by simp [call_mem_of_isLog (checkEVM_isLog_handlerLines _)]⟩

end TestEvmCheck

/-- A trace without a count request holds no block tag. -/
theorem blockTags_eq_nil (post : Trace)
    (h : ∀ address blockTag o, Event.call (.getTransactionCount address blockTag) o ∉ post) :
    (callsOf post).filterMap Call.blockTag = [] := by
  induction post with
  | nil => rfl
  | cons e rest ih =>
    have hrest := ih fun address blockTag o hm => h address blockTag o (List.mem_cons_of_mem _ hm)
    cases e with
    | log s args => simpa [callsOf] using hrest
    | call c o =>
      cases c <;>
        first
        | exact absurd (List.mem_cons_self _ _) (h _ _ o)
        | simpa [callsOf, Call.blockTag] using hrest

set_option maxRecDepth 100000 in
/-- C11, refuted as stated: `checkEVM` requests the count without a block
tag.  Against a node whose pool holds one transaction of the wallet, the
pending count is 4 and the nonce `checkEVM` signs is 3, the count at the
latest block. -/
theorem nonce_is_latest_count_not_pending :
    pooled.getTransactionCount [.log .out [.text "Testing minimal contract deployment..."]]
      pooled.walletAddress (some (js "pending")) = .ok 4 ∧
    (callsOf (TestEvmCheck.checkEVM pooled).trace).filterMap Call.blockTag = [none] ∧
    Event.call (.signTransaction (TestEvmCheck.transaction pooled 3))
        (.returned (.str (js "0xf86480"))) ∈ (TestEvmCheck.checkEVM pooled).trace ∧
    (TestEvmCheck.transaction pooled 3).nonce = some 3 :=
  ⟨rfl, by decide, by decide, rfl⟩

/-- C11, amended. In `checkEVM` the nonce of the signed transaction is the
answer to `getTransactionCount(wallet.address)`, requested once and without a
block tag, so that the default block of the library applies and not
`pending`.  The count is fetched immediately before signing: only the
`Transaction:` console line lies between the request and `signTransaction`,
and no collaborator is called before the request. -/
theorem nonce_is_count_requested_without_block_tag (w : World) (tx : TransactionRequest)
    (o : Outcome)
    (hmem : Event.call (.signTransaction tx) o ∈ (TestEvmCheck.checkEVM w).trace) :
    ∃ n pre post,
      (TestEvmCheck.checkEVM w).trace =
        pre ++ [.call (.getTransactionCount w.walletAddress none) (.returned (.num n)),
                .log .out [.text "Transaction:", .transaction tx],
                .call (.signTransaction tx) o] ++ post ∧
      w.getTransactionCount pre w.walletAddress none = .ok n ∧
      tx.nonce = some n ∧
      callsOf pre = [] ∧
      (∀ tx1 o1, Event.call (.signTransaction tx1) o1 ∉ post) ∧
      (callsOf (TestEvmCheck.checkEVM w).trace).filterMap Call.blockTag = [none] := by
  obtain ⟨n, post, hcount, htx, htrace, hpost, hsign⟩ := TestEvmCheck.checkEVM_nonce_steps w tx o hmem
  refine ⟨n, [.log .out [.text "Testing minimal contract deployment..."]], post, htrace, hcount,
    by rw [htx]; rfl, rfl, hsign, ?_⟩
  rw [htrace, callsOf_append, List.filterMap_append, blockTags_eq_nil post hpost]
  rfl

set_option maxRecDepth 100000 in
/-- C11 at a concrete collaborator: on the nominal node the count is 3 and
the transaction signed has nonce 3. -/
theorem nonce_is_count_requested_without_block_tag_witness :
    Event.call (.signTransaction (TestEvmCheck.transaction nominal 3))
        (.returned (.str (js "0xf86480"))) ∈ (TestEvmCheck.checkEVM nominal).trace ∧
    ∃ n pre post,
      (TestEvmCheck.checkEVM nominal).trace =
        pre ++ [.call (.getTransactionCount nominal.walletAddress none) (.returned (.num n)),
                .log .out [.text "Transaction:",
                  .transaction (TestEvmCheck.transaction nominal 3)],
                .call (.signTransaction (TestEvmCheck.transaction nominal 3))
                  (.returned (.str (js "0xf86480")))] ++ post ∧
      nominal.getTransactionCount pre nominal.walletAddress none = .ok n ∧
      (TestEvmCheck.transaction nominal 3).nonce = some n ∧
      callsOf pre = [] ∧
      (∀ tx1 o1, Event.call (.signTransaction tx1) o1 ∉ post) ∧
      (callsOf (TestEvmCheck.checkEVM nominal).trace).filterMap Call.blockTag = [none] :=
  ⟨by decide,
    nonce_is_count_requested_without_block_tag nominal (TestEvmCheck.transaction nominal 3)
      (.returned (.str (js "0xf86480"))) (by decide)⟩

/-! ## The artifact and the compile request of `deployContract` -/

namespace DeploySolution

/-- The run of `deployContract`, as a function of the compiler's answer: one
`compile` call with the request `compileInput`, then the error check and the
lookup of the contract entry. -/
theorem deployContract_eq (w : World) (contractSource contractName : JsString) (tr : Trace) :
    deployContract w contractSource contractName tr =
      match w.compile tr (compileInput contractSource contractName) with
      | .ok output =>
        (match checkErrors output with
          | .error e => .error e
          | .ok () =>
            match contractEntry output (contractName ++ js ".sol") contractName with
            | .error e => .error e
            | .ok entry => .ok { bytecode := js "0x" ++ entry.bytecodeObject, abi := entry.abi },
          tr ++ [.call (.compile (compileInput contractSource contractName))
            (.returned (.compiled output))])
      | .error e =>
        (.error e,
          tr ++ [.call (.compile (compileInput contractSource contractName)) (.threw e)]) := by
  simp only [deployContract, throwOnErrors, World.solc, Script.bind_run, Script.andThen, perform,
    fromExcept]
  cases w.compile tr (compileInput contractSource contractName) with
  | error e => rfl
  | ok output =>
    simp only []
    cases checkErrors output with
    | error e => rfl
    | ok u =>
      cases contractEntry output (contractName ++ js ".sol") contractName <;> rfl

/-- An `errors` list without an entry of severity `error` passes the check. -/
theorem checkErrors_ok (output : CompilerOutput)
    (h : ∀ err ∈ output.errors.getD [], err.severity ≠ js "error") :
    checkErrors output = .ok () := by
  rw [checkErrors_eq]
  have hnone : (output.errors.getD []).find? (fun err => decide (err.severity = js "error"))
      = none := by
    rw [List.find?_eq_none]
    intro err hmem
    simpa using h err hmem
  rw [hnone]

end DeploySolution

/-- C12. `deployContract` of `deploy-solution.js` makes one collaborator
call, `compile`, whose request names the single source file
`contractName + ".sol"` with the given content, the EVM version `london`
and the optimizer enabled with 200 runs.  When the compiler output has no
entry of severity `error` and holds `contracts[contractName + ".sol"][contractName]`,
the call returns `0x` followed by the entry's `evm.bytecode.object` as
`bytecode` and the entry's `abi` unchanged. -/
theorem deployContract_returns_entry_artifact (w : World)
    (contractSource contractName : JsString) (tr : Trace) :
    (∃ request o,
      (DeploySolution.deployContract w contractSource contractName tr).2 =
        tr ++ [.call (.compile request) o] ∧
      request.language = js "Solidity" ∧
      request.sources = [(contractName ++ js ".sol", contractSource)] ∧
      request.settings.evmVersion = js "london" ∧
      request.settings.optimizer = some { enabled := true, runs := 200 } ∧
      (∀ output, w.compile tr request = .ok output → o = .returned (.compiled output))) ∧
    (∀ (output : CompilerOutput) (files : List (JsString × List (JsString × ContractOutput)))
        (contracts : List (JsString × ContractOutput)) (entry : ContractOutput),
      w.compile tr (DeploySolution.compileInput contractSource contractName) = .ok output →
      (∀ err ∈ output.errors.getD [], err.severity ≠ js "error") →
      output.contracts = some files →
      files.lookup (contractName ++ js ".sol") = some contracts →
      contracts.lookup contractName = some entry →
      (DeploySolution.deployContract w contractSource contractName tr).1 =
        .ok { bytecode := js "0x" ++ entry.bytecodeObject, abi := entry.abi }) := by
  constructor
  · rw [DeploySolution.deployContract_eq]
    cases hc : w.compile tr (DeploySolution.compileInput contractSource contractName) with
    | error e =>
      exact ⟨_, _, rfl, rfl, rfl, rfl, rfl, fun output h => by rw [hc] at h; cases h⟩
    | ok output =>
      exact ⟨_, _, rfl, rfl, rfl, rfl, rfl, fun output1 h => by rw [hc] at h; cases h; rfl⟩
  · intro output files contracts entry hcompile hnoerr hfiles hfile hentry
    rw [DeploySolution.deployContract_run w contractSource contractName tr output files contracts
      entry hcompile hfiles hfile hentry, DeploySolution.checkErrors_ok output hnoerr]

/-- C12 at a concrete input: a compiler output with a warning and the entry
of `SimpleStorage`, whose bytecode object is `6080`. -/
theorem deployContract_returns_entry_artifact_witness :
    (∀ err ∈ warningOutput.errors.getD [], err.severity ≠ js "error") ∧
    (DeploySolution.deployContract (withOutput warningOutput) DeploySolution.simpleStorageSource
        (js "SimpleStorage") []).1 = .ok { bytecode := js "0x6080", abi := [js "[]"] } :=
  ⟨by decide,
    (deployContract_returns_entry_artifact (withOutput warningOutput)
      DeploySolution.simpleStorageSource (js "SimpleStorage") []).2 warningOutput
      [(js "SimpleStorage.sol",
        [(js "SimpleStorage", { abi := [js "[]"], bytecodeObject := js "6080" })])]
      [(js "SimpleStorage", { abi := [js "[]"], bytecodeObject := js "6080" })]
      { abi := [js "[]"], bytecodeObject := js "6080" } rfl (by decide) rfl (by decide)
      (by decide)⟩

/-! ## Determinism of `deployContract` -/

/-- C13. `deployContract` of `deploy-solution.js` is deterministic in its
inputs.  Two calls with the same source and contract name, made at any two
points of any runs, send the same compile request; when the compiler is a
function of its request, both record the same compiler answer and both end
the same way: with the same bytecode and ABI, or with the same error. -/
theorem deployContract_deterministic (w : World)
    (compiler : CompileRequest → Except JsError CompilerOutput)
    (hcompiler : ∀ tr request, w.compile tr request = compiler request)
    (contractSource contractName : JsString) (tr1 tr2 : Trace) :
    (∃ request o,
      (DeploySolution.deployContract w contractSource contractName tr1).2 =
        tr1 ++ [.call (.compile request) o] ∧
      (DeploySolution.deployContract w contractSource contractName tr2).2 =
        tr2 ++ [.call (.compile request) o]) ∧
    (DeploySolution.deployContract w contractSource contractName tr1).1 =
      (DeploySolution.deployContract w contractSource contractName tr2).1 ∧
    (∀ a1 a2,
      (DeploySolution.deployContract w contractSource contractName tr1).1 = .ok a1 →
      (DeploySolution.deployContract w contractSource contractName tr2).1 = .ok a2 →
      a1.bytecode = a2.bytecode) ∧
    (∀ e,
      (DeploySolution.deployContract w contractSource contractName tr1).1 = .error e →
      (DeploySolution.deployContract w contractSource contractName tr2).1 = .error e) := by
  have hresult : (DeploySolution.deployContract w contractSource contractName tr1).1 =
      (DeploySolution.deployContract w contractSource contractName tr2).1 := by
    simp only [DeploySolution.deployContract_eq, hcompiler]
    cases compiler (DeploySolution.compileInput contractSource contractName) <;> rfl
  refine ⟨?_, hresult, fun a1 a2 h1 h2 => ?_, fun e h1 => ?_⟩
  · simp only [DeploySolution.deployContract_eq, hcompiler]
    cases compiler (DeploySolution.compileInput contractSource contractName) with
    | error e => exact ⟨_, _, rfl, rfl⟩
    | ok output => exact ⟨_, _, rfl, rfl⟩
  · rw [hresult, h2] at h1
    cases h1
    rfl
  · rw [← hresult]
    exact h1

/-- C13 at a concrete collaborator: the nominal compiler answers from the
request alone, and a call at the start of a run and a call after a console
line both return the bytecode `0x6080`. -/
theorem deployContract_deterministic_witness :
    (DeploySolution.deployContract nominal DeploySolution.simpleStorageSource
        (js "SimpleStorage") []).1 = .ok { bytecode := js "0x6080", abi := [js "[]"] } ∧
    (DeploySolution.deployContract nominal DeploySolution.simpleStorageSource
        (js "SimpleStorage") []).1 =
      (DeploySolution.deployContract nominal DeploySolution.simpleStorageSource
        (js "SimpleStorage") [.log .out [.text "again"]]).1 :=
  ⟨by rfl,
    (deployContract_deterministic nominal (fun request => .ok (cleanOutput request))
      (fun _ _ => rfl) DeploySolution.simpleStorageSource (js "SimpleStorage") []
      [.log .out [.text "again"]]).2.1⟩

/-! ## The report step of `deploy.js` -/

namespace Deploy

/-- The function `deployContract` of `deploy.js` returns at no point of any
run. -/
theorem deployContract_not_ok (w : World) (tr : Trace) :
    (deployContract w tr).1 ≠ .ok () := by
  simp only [deployContract, World.calls, Script.steps]
  repeat' (split <;> try simp only [Script.steps])
  all_goals simp

/-- The function `deployContract` of `deploy.js` ends with an error at every
point of every run. -/
theorem deployContract_throws (w : World) (tr : Trace) :
    ∃ e, (deployContract w tr).1 = .error e := by
  cases h : (deployContract w tr).1 with
  | ok u => exact absurd h (deployContract_not_ok w tr)
  | error e => exact ⟨e, rfl⟩

/-- The error of `deployContract` is handed to the handler, whose console
line ends the run. -/
theorem run_ends_in_handler (w : World) :
    ∃ pre e, (deployContract w []).1 = .error e ∧
      (run w).trace = pre ++ [.log .err [.text "Error deploying contract:", .error e]] ∧
      (run w []).1 = .ok () := by
  obtain ⟨e, he⟩ := deployContract_throws w []
  simp only [Script.trace, run, Script.tryCatch_run, Script.attempt]
  rcases hd : deployContract w [] with ⟨r, tr1⟩
  rw [hd] at he
  cases he
  exact ⟨tr1, e, rfl, rfl, rfl⟩

/-- A run in which `getValue()` returned: the call follows the `setValue`
call directly, and the run ends with the `ReferenceError` of reading
`value`, printed by the handler. -/
theorem run_after_getValue (w : World) (c : ContractRef) (v : Nat)
    (hmem : Event.call (.read c (js "getValue") []) (.returned (.num v)) ∈ (run w).trace) :
    (deployContract w []).1 = .error (referenceError (js "value")) ∧
    ∃ pre tx, (run w).trace =
      pre ++ [.call (.send c (js "setValue") [.num 100] none) (.returned (.response tx)),
              .call (.read c (js "getValue") []) (.returned (.num v)),
              .log .err [.text "Error deploying contract:",
                .error (referenceError (js "value"))]] := by
  revert c v
  simp only [Script.trace, run, deployContract, World.calls, Script.steps]
  repeat' (split <;> try simp only [Script.steps])
  all_goals
    intro c v hmem
    simp at hmem
  all_goals
    obtain ⟨rfl, rfl⟩ := hmem
    exact ⟨trivial, [_, _, _, _, _, _], _, rfl⟩

/-- No run of `deploy.js` waits for a transaction. -/
theorem run_never_waits (w : World) (tx : TransactionResponse) (o : Outcome) :
    Event.call (.wait tx) o ∉ (run w).trace := by
  simp only [Script.trace, run, deployContract, World.calls, Script.steps]
  repeat' (split <;> try simp only [Script.steps])
  all_goals simp

end Deploy

/-- C14. `deployContract` of `deploy.js` never completes successfully: at
every point of every run it ends with an error, and the run ends in the
handler, which prints the error.  In a run in which `deploy`,
`waitForDeployment`, `setValue` and `getValue` all succeed, so that
`getValue()` returned, the error is the `ReferenceError` of reading the
undeclared name `value`, the value read being bound to `val`.  The
`getValue()` call follows the `setValue` call directly, and no run waits for
a transaction. -/
theorem deploy_js_never_completes (w : World) :
    (∀ tr, ∃ e, (Deploy.deployContract w tr).1 = .error e) ∧
    (∃ pre e, (Deploy.deployContract w []).1 = .error e ∧
      (Deploy.run w).trace = pre ++ [.log .err [.text "Error deploying contract:", .error e]] ∧
      (Deploy.run w []).1 = .ok ()) ∧
    (∀ c v,
      Event.call (.read c (js "getValue") []) (.returned (.num v)) ∈ (Deploy.run w).trace →
      (Deploy.deployContract w []).1 = .error (referenceError (js "value")) ∧
      ∃ pre tx, (Deploy.run w).trace =
        pre ++ [.call (.send c (js "setValue") [.num 100] none) (.returned (.response tx)),
                .call (.read c (js "getValue") []) (.returned (.num v)),
                .log .err [.text "Error deploying contract:",
                  .error (referenceError (js "value"))]]) ∧
    (∀ tx o, Event.call (.wait tx) o ∉ (Deploy.run w).trace) :=
  ⟨Deploy.deployContract_throws w, Deploy.run_ends_in_handler w,
    fun c v hmem => Deploy.run_after_getValue w c v hmem, Deploy.run_never_waits w⟩

set_option maxRecDepth 100000 in
/-- C14 at a concrete collaborator: on the nominal node every call succeeds,
`getValue()` returns, and the run ends with `value is not defined`. -/
theorem deploy_js_never_completes_witness :
    Event.call (.read (.deployed { deploymentTransaction := { hash := js "0xd1" } })
        (js "getValue") []) (.returned (.num 0)) ∈ (Deploy.run nominal).trace ∧
    (referenceError (js "value")).message = js "value is not defined" ∧
    (Deploy.deployContract nominal []).1 = .error (referenceError (js "value")) :=
  ⟨by decide, by decide,
    ((deploy_js_never_completes nominal).2.2.1
      (.deployed { deploymentTransaction := { hash := js "0xd1" } }) 0 (by decide)).1⟩

end Interact
